import Mathlib

/-!
# Verification of the tick-based simulation core

Shallow embedding of the simulation core of the repository (diplomacy ledger,
combat resolver, terrain movement, country registry, defender spawner,
retaliation director, and the store-level player commands / missile phase of
the tick function), together with theorems settling the specification claims.

Numeric conventions: the TypeScript source computes with IEEE doubles; the
embedding uses `ℚ` for all game arithmetic (every literal in the source is a
small decimal, exactly representable) and `ℝ` only for the terrain-movement
module, whose step function takes a genuine square root.  JavaScript
`Math.random()` draws are modelled as explicit rational parameters in `[0,1)`,
and `uuidv4()` as a deterministic fresh-identifier supply.
-/

/-- Coordinates (src `types/game`): latitude, longitude, optional altitude.
Parametric in the number type: `ℚ` for game entities, `ℝ` for terrain math. -/
structure Coordinates (α : Type) where
  latitude : α
  longitude : α
  altitude : Option α := none
deriving DecidableEq, Repr

/-- Faction tag (src `types/game`). -/
inductive Faction where
  | player | ai | neutral
deriving DecidableEq, Repr

/-- Movement/combat medium of a unit (src `types/game` UnitDomain). -/
inductive UnitDomain where
  | land | air | naval | cyber | space | special
deriving DecidableEq, Repr

/-- Unit catalog keys (src `types/game` UnitType). -/
inductive UnitType where
  | infantry | armor | artillery | air_defense | engineer
  | fighter | bomber | transport | helicopter | drone
  | destroyer | carrier | submarine | frigate | amphibious
  | special_forces | cyber_team | intel_team
deriving DecidableEq, Repr

/-- Base catalog keys (src `types/game` BaseType). -/
inductive BaseType where
  | hq | army | navy | airforce | intelligence | missile
deriving DecidableEq, Repr

/-- Unit lifecycle status (src `types/game` Unit.status). -/
inductive UnitStatus where
  | idle | moving | attacking | defending | retreating
deriving DecidableEq, Repr

/-- Static unit template (src `types/game` UnitTemplate). -/
structure UnitTemplate where
  type : UnitType
  domain : UnitDomain
  name : String
  symbol : String
  speed : ℚ
  range : ℚ
  attack : ℚ
  defense : ℚ
  cost : ℚ
  productionTime : ℚ
  requiredBase : List BaseType
deriving DecidableEq, Repr

/-- The static unit catalog (src `types/game` UNIT_TEMPLATES), transcribed
field by field from the source record. -/
def UNIT_TEMPLATES : UnitType → UnitTemplate
  | .infantry =>
    { type := .infantry, domain := .land, name := "Infantry Battalion", symbol := "INF",
      speed := 300, range := 500, attack := 40, defense := 50, cost := 100,
      productionTime := 2, requiredBase := [.army, .hq] }
  | .armor =>
    { type := .armor, domain := .land, name := "Armored Division", symbol := "ARM",
      speed := 600, range := 400, attack := 80, defense := 70, cost := 300,
      productionTime := 4, requiredBase := [.army] }
  | .artillery =>
    { type := .artillery, domain := .land, name := "Artillery Battery", symbol := "ART",
      speed := 250, range := 50, attack := 90, defense := 20, cost := 200,
      productionTime := 3, requiredBase := [.army] }
  | .air_defense =>
    { type := .air_defense, domain := .land, name := "Air Defense System", symbol := "ADA",
      speed := 400, range := 200, attack := 70, defense := 40, cost := 250,
      productionTime := 3, requiredBase := [.army, .airforce] }
  | .engineer =>
    { type := .engineer, domain := .land, name := "Engineer Corps", symbol := "ENG",
      speed := 350, range := 300, attack := 20, defense := 30, cost := 150,
      productionTime := 2, requiredBase := [.army, .hq] }
  | .fighter =>
    { type := .fighter, domain := .air, name := "Fighter Squadron", symbol := "FTR",
      speed := 2000, range := 1500, attack := 85, defense := 50, cost := 400,
      productionTime := 4, requiredBase := [.airforce] }
  | .bomber =>
    { type := .bomber, domain := .air, name := "Bomber Wing", symbol := "BMB",
      speed := 900, range := 3000, attack := 95, defense := 30, cost := 500,
      productionTime := 5, requiredBase := [.airforce] }
  | .transport =>
    { type := .transport, domain := .air, name := "Transport Squadron", symbol := "TRP",
      speed := 700, range := 4000, attack := 5, defense := 20, cost := 200,
      productionTime := 3, requiredBase := [.airforce] }
  | .helicopter =>
    { type := .helicopter, domain := .air, name := "Attack Helicopter", symbol := "HEL",
      speed := 280, range := 500, attack := 75, defense := 40, cost := 300,
      productionTime := 3, requiredBase := [.airforce, .army] }
  | .drone =>
    { type := .drone, domain := .air, name := "UAV Squadron", symbol := "UAV",
      speed := 400, range := 1000, attack := 60, defense := 10, cost := 150,
      productionTime := 2, requiredBase := [.airforce, .intelligence] }
  | .destroyer =>
    { type := .destroyer, domain := .naval, name := "Destroyer", symbol := "DDG",
      speed := 55, range := 8000, attack := 70, defense := 60, cost := 400,
      productionTime := 5, requiredBase := [.navy] }
  | .carrier =>
    { type := .carrier, domain := .naval, name := "Aircraft Carrier", symbol := "CVN",
      speed := 55, range := 12000, attack := 40, defense := 80, cost := 1000,
      productionTime := 10, requiredBase := [.navy] }
  | .submarine =>
    { type := .submarine, domain := .naval, name := "Attack Submarine", symbol := "SSN",
      speed := 45, range := 10000, attack := 85, defense := 50, cost := 500,
      productionTime := 6, requiredBase := [.navy] }
  | .frigate =>
    { type := .frigate, domain := .naval, name := "Frigate", symbol := "FFG",
      speed := 50, range := 6000, attack := 55, defense := 50, cost := 300,
      productionTime := 4, requiredBase := [.navy] }
  | .amphibious =>
    { type := .amphibious, domain := .naval, name := "Amphibious Assault Ship", symbol := "LHD",
      speed := 40, range := 9000, attack := 30, defense := 60, cost := 600,
      productionTime := 7, requiredBase := [.navy] }
  | .special_forces =>
    { type := .special_forces, domain := .special, name := "Special Forces Team", symbol := "SOF",
      speed := 500, range := 2000, attack := 70, defense := 40, cost := 200,
      productionTime := 3, requiredBase := [.army, .intelligence] }
  | .cyber_team =>
    { type := .cyber_team, domain := .cyber, name := "Cyber Operations Team", symbol := "CYB",
      speed := 0, range := 10000, attack := 50, defense := 80, cost := 300,
      productionTime := 4, requiredBase := [.intelligence] }
  | .intel_team =>
    { type := .intel_team, domain := .special, name := "Intelligence Cell", symbol := "INT",
      speed := 400, range := 3000, attack := 10, defense := 30, cost := 150,
      productionTime := 2, requiredBase := [.intelligence, .hq] }

/-- Mutable unit entity (src `types/game` Unit; named `GameUnit` here because
`Unit` is taken by Lean's core library).  `parentBaseId` is an `Option`
because `moveUnit` in the store sets it to `undefined`. -/
structure GameUnit where
  id : String
  templateType : UnitType
  name : String
  position : Coordinates ℚ
  destination : Option (Coordinates ℚ) := none
  faction : Faction
  health : ℚ
  maxHealth : ℚ
  status : UnitStatus
  parentBaseId : Option String := none
  createdAt : ℕ
deriving DecidableEq, Repr

/-- Mutable base entity (src `types/game` Base). -/
structure Base where
  id : String
  name : String
  type : BaseType
  position : Coordinates ℚ
  faction : Faction
  health : ℚ
  maxHealth : ℚ
  productionCapacity : ℚ
  influenceRadius : ℚ
  createdAt : ℕ
deriving DecidableEq, Repr

/-! ## Diplomacy ledger (src `engine/diplomacy`) -/

/-- Diplomatic status of a foreign nation (src `engine/diplomacy`). -/
inductive DiplomaticStatus where
  | peace | tense | hostile | war | allied
deriving DecidableEq, Repr

/-- Per-nation relation record (src `engine/diplomacy` NationRelation). -/
structure NationRelation where
  nationId : String
  nationName : String
  status : DiplomaticStatus
  opinion : ℚ
  warScore : ℚ
  treatiesActive : List String
deriving DecidableEq, Repr

/-- src `createNationRelation`: opinion 0, status peace, warScore 0. -/
def createNationRelation (nationId nationName : String) : NationRelation :=
  { nationId := nationId, nationName := nationName, status := .peace,
    opinion := 0, warScore := 0, treatiesActive := [] }

/-- src `updateDiplomaticStatus`: war is sticky, otherwise the status is a
pure function of opinion. -/
def updateDiplomaticStatus (relation : NationRelation) : DiplomaticStatus :=
  if relation.status = .war then .war
  else if relation.opinion ≤ -75 then .hostile
  else if relation.opinion ≤ -40 then .tense
  else if 50 ≤ relation.opinion then .allied
  else .peace

/-- Result shape of `modifyOpinion` (the source returns an anonymous record
with these three fields). -/
structure ModifyOpinionResult where
  relation : NationRelation
  statusChanged : Bool
  newStatus : DiplomaticStatus
deriving DecidableEq, Repr

/-- src `modifyOpinion`: clamp the new opinion into [-100,100]; a modifier
of -40 or worse against a nation not already at war forces war and resets
the war score; otherwise the status is recomputed from the new opinion. -/
def modifyOpinion (relation : NationRelation) (modifier : ℚ) (_reason : String) :
    ModifyOpinionResult :=
  let newOpinion := max (-100) (min 100 (relation.opinion + modifier))
  let oldStatus := relation.status
  let updatedRelation := { relation with opinion := newOpinion }
  if modifier ≤ -40 ∧ oldStatus ≠ .war then
    { relation := { updatedRelation with status := .war, warScore := 0 },
      statusChanged := true,
      newStatus := .war }
  else
    let newStatus := updateDiplomaticStatus updatedRelation
    { relation := { updatedRelation with status := newStatus },
      statusChanged := oldStatus != newStatus,
      newStatus := newStatus }

/-- C1: `modifyOpinion` clamps the new opinion to [-100,100]; a delta of
-40 or below against a relation not already at war forces status `war`,
resets `warScore` to 0 and reports a status change; otherwise the returned
status is the pure function of the new opinion given by: war is sticky,
opinion ≤ -75 gives hostile, opinion ≤ -40 gives tense, opinion ≥ 50 gives
allied, anything else peace. -/
theorem modifyOpinion_clamps_and_updates_status
    (relation : NationRelation) (delta : ℚ) (reason : String) :
    (-100 ≤ (modifyOpinion relation delta reason).relation.opinion ∧
      (modifyOpinion relation delta reason).relation.opinion ≤ 100) ∧
    (delta ≤ -40 → relation.status ≠ .war →
      (modifyOpinion relation delta reason).relation.status = .war ∧
      (modifyOpinion relation delta reason).relation.warScore = 0 ∧
      (modifyOpinion relation delta reason).statusChanged = true) ∧
    (¬ (delta ≤ -40 ∧ relation.status ≠ .war) →
      (modifyOpinion relation delta reason).relation.status =
        (if relation.status = .war then .war
         else if (modifyOpinion relation delta reason).relation.opinion ≤ -75 then .hostile
         else if (modifyOpinion relation delta reason).relation.opinion ≤ -40 then .tense
         else if 50 ≤ (modifyOpinion relation delta reason).relation.opinion then .allied
         else .peace)) := by
  have hop : (modifyOpinion relation delta reason).relation.opinion
      = max (-100) (min 100 (relation.opinion + delta)) := by
    simp only [modifyOpinion]
    split <;> rfl
  refine ⟨⟨?_, ?_⟩, ?_, ?_⟩
  · rw [hop]; exact le_max_left _ _
  · rw [hop]; exact max_le (by norm_num) (min_le_left _ _)
  · intro hdelta hwar
    simp only [modifyOpinion,
      if_pos (show delta ≤ -40 ∧ relation.status ≠ .war from ⟨hdelta, hwar⟩)]
    exact ⟨trivial, trivial, trivial⟩
  · intro hneg
    rw [hop]
    simp only [modifyOpinion, if_neg hneg, updateDiplomaticStatus]

/-- Witness for C1: a -50 missile-strike style delta on a fresh peaceful
relation forces war with war score 0, and the clamp bounds hold there. -/
theorem modifyOpinion_clamps_and_updates_status_witness :
    (modifyOpinion (createNationRelation "deu" "Germany") (-50) "missile strike").relation.status
      = .war ∧
    (modifyOpinion (createNationRelation "deu" "Germany") (-50) "missile strike").relation.warScore
      = 0 ∧
    -100 ≤ (modifyOpinion (createNationRelation "deu" "Germany") (-50) "missile strike").relation.opinion := by
  have h := modifyOpinion_clamps_and_updates_status
    (createNationRelation "deu" "Germany") (-50) "missile strike"
  exact ⟨(h.2.1 (by norm_num) (by decide)).1, (h.2.1 (by norm_num) (by decide)).2.1, h.1.1⟩

/-! ## Combat resolver (src `engine/combat`) -/

/-- Engagement range in km (src `engine/combat` ENGAGEMENT_RANGE_KM). -/
def ENGAGEMENT_RANGE_KM : ℚ := 50

/-- JavaScript `x || d` on a number: yields the default `d` when `x` is the
falsy value 0, otherwise `x` (the source writes `template?.attack || 50`). -/
def orFalsy (x d : ℚ) : ℚ := if x = 0 then d else x

/-- Damage report of a unit-vs-unit engagement (src `engine/combat`
CombatResult). -/
structure CombatResult where
  attackerId : String
  defenderId : String
  attackerDamage : ℤ
  defenderDamage : ℤ
  attackerDestroyed : Bool
  defenderDestroyed : Bool
deriving DecidableEq, Repr

/-- src `getDomainBonus`, with the source's branch order preserved: the
air-attacker/land-defender test returns 1.3 before the later 0.8
"air defense" branch can be reached. -/
def getDomainBonus (attackerDomain defenderDomain : UnitDomain) : ℚ :=
  if attackerDomain = .air ∧ defenderDomain = .land then 13/10
  else if attackerDomain = .land ∧ defenderDomain = .air then 7/10
  else if defenderDomain = .land ∧ attackerDomain = .air then 8/10
  else if attackerDomain = .naval ∧ defenderDomain = .land then 9/10
  else if attackerDomain = .special then 12/10
  else 1

/-- src `resolveUnitCombat`.  The two `variance()` calls draw `r1` (for the
damage to the defender) and `r2` (for the damage to the attacker) from
`Math.random()`; variance is `0.7 + r * 0.6`. -/
def resolveUnitCombat (r1 r2 : ℚ) (attacker defender : GameUnit) : CombatResult :=
  let attackerTemplate := UNIT_TEMPLATES attacker.templateType
  let defenderTemplate := UNIT_TEMPLATES defender.templateType
  let attackerAttack := orFalsy attackerTemplate.attack 50
  let defenderDefense := orFalsy defenderTemplate.defense 30
  let defenderAttack := orFalsy defenderTemplate.attack 50
  let attackerDefense := orFalsy attackerTemplate.defense 30
  let domainBonus := getDomainBonus attackerTemplate.domain defenderTemplate.domain
  let damageToDefender :=
    ⌊attackerAttack * domainBonus * (1 - defenderDefense / 200) * (7/10 + r1 * (6/10))⌋
  let damageToAttacker :=
    ⌊defenderAttack * (1 / domainBonus) * (1 - attackerDefense / 200) * (7/10 + r2 * (6/10))⌋
  let newAttackerHealth := attacker.health - (damageToAttacker : ℚ)
  let newDefenderHealth := defender.health - (damageToDefender : ℚ)
  { attackerId := attacker.id,
    defenderId := defender.id,
    attackerDamage := damageToAttacker,
    defenderDamage := damageToDefender,
    attackerDestroyed := decide (newAttackerHealth ≤ 0),
    defenderDestroyed := decide (newDefenderHealth ≤ 0) }

/-- src `resolveUnitVsBaseCombat`: fixed base defense 50, variance
`0.8 + r * 0.4` with `r` the `Math.random()` draw; returns damage only. -/
def resolveUnitVsBaseCombat (r : ℚ) (attacker : GameUnit) (_base : Base) : ℤ :=
  let attackerTemplate := UNIT_TEMPLATES attacker.templateType
  let attack := orFalsy attackerTemplate.attack 50
  let baseDefense : ℚ := 50
  ⌊attack * (1 - baseDefense / 200) * (8/10 + r * (4/10))⌋

/-- Every catalog template keeps the effective attack nonnegative and the
effective defense at most 200, so the damage factor `1 - defense/200` is
never negative for catalog units. -/
theorem catalog_effective_stats (t : UnitType) :
    0 ≤ orFalsy (UNIT_TEMPLATES t).attack 50 ∧ orFalsy (UNIT_TEMPLATES t).defense 30 ≤ 200 := by
  cases t <;> exact ⟨by norm_num [UNIT_TEMPLATES, orFalsy], by norm_num [UNIT_TEMPLATES, orFalsy]⟩

/-- The domain bonus is strictly positive for every domain pair. -/
theorem getDomainBonus_pos (a d : UnitDomain) : 0 < getDomainBonus a d := by
  cases a <;> cases d <;> simp [getDomainBonus]

/-- C5: for every attacker and defender (whose catalog templates all have
attack ≥ 0 and defense ≥ 0) and every pair of `Math.random()` draws in
[0,1), `resolveUnitCombat` reports nonnegative damage to both sides. -/
theorem resolveUnitCombat_damage_nonneg (r1 r2 : ℚ) (attacker defender : GameUnit)
    (hr1 : 0 ≤ r1) (hr2 : 0 ≤ r2)
    (_hatk : 0 ≤ (UNIT_TEMPLATES attacker.templateType).attack)
    (_hdef : 0 ≤ (UNIT_TEMPLATES attacker.templateType).defense)
    (_hatk' : 0 ≤ (UNIT_TEMPLATES defender.templateType).attack)
    (_hdef' : 0 ≤ (UNIT_TEMPLATES defender.templateType).defense) :
    0 ≤ (resolveUnitCombat r1 r2 attacker defender).attackerDamage ∧
    0 ≤ (resolveUnitCombat r1 r2 attacker defender).defenderDamage := by
  have hbonus := getDomainBonus_pos (UNIT_TEMPLATES attacker.templateType).domain
    (UNIT_TEMPLATES defender.templateType).domain
  have hA := catalog_effective_stats attacker.templateType
  have hD := catalog_effective_stats defender.templateType
  have hfacA : (0:ℚ) ≤ 1 - orFalsy (UNIT_TEMPLATES attacker.templateType).defense 30 / 200 := by
    have := hA.2; linarith
  have hfacD : (0:ℚ) ≤ 1 - orFalsy (UNIT_TEMPLATES defender.templateType).defense 30 / 200 := by
    have := hD.2; linarith
  have hv1 : (0:ℚ) ≤ 7/10 + r1 * (6/10) := by linarith
  have hv2 : (0:ℚ) ≤ 7/10 + r2 * (6/10) := by linarith
  constructor
  · show (0:ℤ) ≤ ⌊orFalsy (UNIT_TEMPLATES defender.templateType).attack 50 *
      (1 / getDomainBonus (UNIT_TEMPLATES attacker.templateType).domain
        (UNIT_TEMPLATES defender.templateType).domain) *
      (1 - orFalsy (UNIT_TEMPLATES attacker.templateType).defense 30 / 200) *
      (7/10 + r2 * (6/10))⌋
    refine Int.floor_nonneg.mpr ?_
    have h1 : (0:ℚ) ≤ orFalsy (UNIT_TEMPLATES defender.templateType).attack 50 *
        (1 / getDomainBonus (UNIT_TEMPLATES attacker.templateType).domain
          (UNIT_TEMPLATES defender.templateType).domain) :=
      mul_nonneg hD.1 (by positivity)
    exact mul_nonneg (mul_nonneg h1 hfacA) hv2
  · show (0:ℤ) ≤ ⌊orFalsy (UNIT_TEMPLATES attacker.templateType).attack 50 *
      getDomainBonus (UNIT_TEMPLATES attacker.templateType).domain
        (UNIT_TEMPLATES defender.templateType).domain *
      (1 - orFalsy (UNIT_TEMPLATES defender.templateType).defense 30 / 200) *
      (7/10 + r1 * (6/10))⌋
    refine Int.floor_nonneg.mpr ?_
    have h1 : (0:ℚ) ≤ orFalsy (UNIT_TEMPLATES attacker.templateType).attack 50 *
        getDomainBonus (UNIT_TEMPLATES attacker.templateType).domain
          (UNIT_TEMPLATES defender.templateType).domain :=
      mul_nonneg hA.1 (le_of_lt hbonus)
    exact mul_nonneg (mul_nonneg h1 hfacD) hv1

/-- Witness for C5: an infantry battalion engaging an armored division with
both variance draws at 0 takes and deals nonnegative damage. -/
theorem resolveUnitCombat_damage_nonneg_witness :
    0 ≤ (resolveUnitCombat 0 0
      { id := "p1", templateType := .infantry, name := "Infantry 1",
        position := { latitude := 0, longitude := 0 }, faction := .player,
        health := 100, maxHealth := 100, status := .idle, createdAt := 0 }
      { id := "e1", templateType := .armor, name := "Armor 1",
        position := { latitude := 0, longitude := 0 }, faction := .ai,
        health := 100, maxHealth := 100, status := .defending, createdAt := 0 }).attackerDamage ∧
    0 ≤ (resolveUnitCombat 0 0
      { id := "p1", templateType := .infantry, name := "Infantry 1",
        position := { latitude := 0, longitude := 0 }, faction := .player,
        health := 100, maxHealth := 100, status := .idle, createdAt := 0 }
      { id := "e1", templateType := .armor, name := "Armor 1",
        position := { latitude := 0, longitude := 0 }, faction := .ai,
        health := 100, maxHealth := 100, status := .defending, createdAt := 0 }).defenderDamage :=
  resolveUnitCombat_damage_nonneg 0 0 _ _ (by norm_num) (by norm_num)
    (by norm_num [UNIT_TEMPLATES]) (by norm_num [UNIT_TEMPLATES])
    (by norm_num [UNIT_TEMPLATES]) (by norm_num [UNIT_TEMPLATES])

/-- C7 counterexample: in the domain-bonus lookup, an air attacker against a
land defender gets multiplier 1.3, not the 0.8 the claim states. -/
theorem getDomainBonus_air_vs_land_not_pointEight :
    getDomainBonus .air .land ≠ 8/10 := by simp [getDomainBonus]; norm_num

/-- C7 (amended): whenever the defender's domain is land and the attacker's
domain is air, the multiplier actually applied is 1.3 — the preceding
air-beats-land branch returns before the 0.8 branch can fire, leaving the
0.8 "air defense" case unreachable. -/
theorem getDomainBonus_air_vs_land :
    getDomainBonus .air .land = 13/10 := by simp [getDomainBonus]

/-! ## Per-tick engagement pass (src `engine/combat` processCombatTick)

`calculateDistance` (src `engine/simulation`) is the transcendental haversine
formula; the embedding abstracts it as an explicit `dist` parameter, so every
theorem below is quantified over the distance function.  The `Math.random()`
stream is the parameter `rng`, consumed at an explicit index carried in the
state.  The `engagements` field is ghost instrumentation recording each
`resolveUnitCombat` call as an (attackerId, defenderId) pair; the remaining
fields mirror the source's local mutable state. -/

/-- src `areUnitsInRange`: within the 50 km engagement range. -/
def areUnitsInRange (dist : Coordinates ℚ → Coordinates ℚ → ℚ) (unit1 unit2 : GameUnit) : Bool :=
  decide (dist unit1.position unit2.position ≤ ENGAGEMENT_RANGE_KM)

/-- src `isUnitInBaseRange`: within the 50 km engagement range of a base. -/
def isUnitInBaseRange (dist : Coordinates ℚ → Coordinates ℚ → ℚ) (unit : GameUnit) (base : Base) : Bool :=
  decide (dist unit.position base.position ≤ ENGAGEMENT_RANGE_KM)

/-- Mutable state of one `processCombatTick` call. -/
structure CombatTickState where
  pUnits : List GameUnit
  pBases : List Base
  eUnits : List GameUnit
  eBases : List Base
  fought : List String
  combatLogs : List String
  engagements : List (String × String)
  ridx : ℕ
deriving Repr

/-- The unit-vs-unit part of one iteration of the first loop of
`processCombatTick`: the player unit at index `i` engages the first living
enemy unit in range, both sides take damage, and both ids are marked
fought. -/
def playerEngage (dist : Coordinates ℚ → Coordinates ℚ → ℚ) (rng : ℕ → ℚ)
    (s : CombatTickState) (i : ℕ) (playerUnit : GameUnit) : CombatTickState :=
  match s.eUnits.findIdx? (fun e => decide (0 < e.health) && areUnitsInRange dist playerUnit e) with
  | none => s
  | some j =>
    match s.eUnits.get? j with
    | none => s
    | some target =>
      let result := resolveUnitCombat (rng s.ridx) (rng (s.ridx + 1)) playerUnit target
      { s with
        pUnits := s.pUnits.set i
          { playerUnit with health := max 0 (playerUnit.health - (result.attackerDamage : ℚ)) },
        eUnits := s.eUnits.set j
          { target with health := max 0 (target.health - (result.defenderDamage : ℚ)) },
        fought := s.fought ++ [playerUnit.id, target.id],
        combatLogs := s.combatLogs ++
          [if result.defenderDestroyed then
            playerUnit.name ++ " destroyed enemy " ++ target.name
          else if result.attackerDestroyed then
            playerUnit.name ++ " was destroyed by " ++ target.name
          else
            "Combat: " ++ playerUnit.name ++ " vs " ++ target.name ++ " - both damaged"],
        engagements := s.engagements ++ [(playerUnit.id, target.id)],
        ridx := s.ridx + 2 }

/-- The unit-vs-base part of one iteration of the first loop of
`processCombatTick`: if some living enemy base is in range and the player
unit has not fought this tick, it strikes the first such base. -/
def playerBaseStrike (dist : Coordinates ℚ → Coordinates ℚ → ℚ) (rng : ℕ → ℚ)
    (s : CombatTickState) (playerUnit : GameUnit) : CombatTickState :=
  match s.eBases.findIdx? (fun b => decide (0 < b.health) && isUnitInBaseRange dist playerUnit b) with
  | none => s
  | some j =>
    if playerUnit.id ∈ s.fought then s
    else
      match s.eBases.get? j with
      | none => s
      | some targetBase =>
        let damage := resolveUnitVsBaseCombat (rng s.ridx) playerUnit targetBase
        let newHealth := max 0 (targetBase.health - (damage : ℚ))
        { s with
          eBases := s.eBases.set j { targetBase with health := newHealth },
          combatLogs :=
            if newHealth ≤ 0 then
              s.combatLogs ++ [playerUnit.name ++ " destroyed enemy " ++ targetBase.name]
            else s.combatLogs,
          ridx := s.ridx + 1 }

/-- One iteration of the first loop of `processCombatTick` (player units
attack enemy units, then enemy bases), for the player unit at index `i`. -/
def playerUnitStep (dist : Coordinates ℚ → Coordinates ℚ → ℚ) (rng : ℕ → ℚ)
    (s : CombatTickState) (i : ℕ) : CombatTickState :=
  match s.pUnits.get? i with
  | none => s
  | some playerUnit =>
    if playerUnit.id ∈ s.fought ∨ playerUnit.health ≤ 0 then s
    else
      playerBaseStrike dist rng (playerEngage dist rng s i playerUnit) playerUnit

/-- The unit-vs-unit part of one iteration of the second (retaliation) loop
of `processCombatTick`. -/
def enemyEngage (dist : Coordinates ℚ → Coordinates ℚ → ℚ) (rng : ℕ → ℚ)
    (s : CombatTickState) (i : ℕ) (enemyUnit : GameUnit) : CombatTickState :=
  match s.pUnits.findIdx? (fun p => decide (0 < p.health) && areUnitsInRange dist enemyUnit p) with
  | none => s
  | some j =>
    match s.pUnits.get? j with
    | none => s
    | some target =>
      let result := resolveUnitCombat (rng s.ridx) (rng (s.ridx + 1)) enemyUnit target
      { s with
        eUnits := s.eUnits.set i
          { enemyUnit with health := max 0 (enemyUnit.health - (result.attackerDamage : ℚ)) },
        pUnits := s.pUnits.set j
          { target with health := max 0 (target.health - (result.defenderDamage : ℚ)) },
        fought := s.fought ++ [enemyUnit.id, target.id],
        combatLogs :=
          if result.defenderDestroyed then
            s.combatLogs ++ ["Enemy " ++ enemyUnit.name ++ " destroyed your " ++ target.name]
          else s.combatLogs,
        engagements := s.engagements ++ [(enemyUnit.id, target.id)],
        ridx := s.ridx + 2 }

/-- The unit-vs-base part of one iteration of the second loop of
`processCombatTick`: enemy units strike the first living player base in
range when they have not fought this tick. -/
def enemyBaseStrike (dist : Coordinates ℚ → Coordinates ℚ → ℚ) (rng : ℕ → ℚ)
    (s : CombatTickState) (enemyUnit : GameUnit) : CombatTickState :=
  match s.pBases.findIdx? (fun b => decide (0 < b.health) && isUnitInBaseRange dist enemyUnit b) with
  | none => s
  | some j =>
    if enemyUnit.id ∈ s.fought then s
    else
      match s.pBases.get? j with
      | none => s
      | some targetBase =>
        let damage := resolveUnitVsBaseCombat (rng s.ridx) enemyUnit targetBase
        let newHealth := max 0 (targetBase.health - (damage : ℚ))
        { s with
          pBases := s.pBases.set j { targetBase with health := newHealth },
          combatLogs :=
            if newHealth ≤ 0 then
              s.combatLogs ++ ["Enemy " ++ enemyUnit.name ++ " destroyed your " ++ targetBase.name]
            else s.combatLogs,
          ridx := s.ridx + 1 }

/-- One iteration of the second loop of `processCombatTick`, for the enemy
unit at index `i`. -/
def enemyUnitStep (dist : Coordinates ℚ → Coordinates ℚ → ℚ) (rng : ℕ → ℚ)
    (s : CombatTickState) (i : ℕ) : CombatTickState :=
  match s.eUnits.get? i with
  | none => s
  | some enemyUnit =>
    if enemyUnit.id ∈ s.fought ∨ enemyUnit.health ≤ 0 then s
    else
      enemyBaseStrike dist rng (enemyEngage dist rng s i enemyUnit) enemyUnit

/-- Both engagement loops of `processCombatTick`, before the final filtering
of destroyed entities. -/
def engagementPass (dist : Coordinates ℚ → Coordinates ℚ → ℚ) (rng : ℕ → ℚ)
    (playerUnits : List GameUnit) (playerBases : List Base)
    (enemyUnits : List GameUnit) (enemyBases : List Base) : CombatTickState :=
  let s0 : CombatTickState :=
    { pUnits := playerUnits, pBases := playerBases,
      eUnits := enemyUnits, eBases := enemyBases,
      fought := [], combatLogs := [], engagements := [], ridx := 0 }
  let s1 := (List.range playerUnits.length).foldl (playerUnitStep dist rng) s0
  (List.range s1.eUnits.length).foldl (enemyUnitStep dist rng) s1

/-- Output shape of `processCombatTick`. -/
structure CombatTickResult where
  updatedPlayerUnits : List GameUnit
  updatedPlayerBases : List Base
  updatedEnemyUnits : List GameUnit
  updatedEnemyBases : List Base
  combatLogs : List String
deriving Repr

/-- src `processCombatTick`: run both engagement loops, then filter out
destroyed units and bases. -/
def processCombatTick (dist : Coordinates ℚ → Coordinates ℚ → ℚ) (rng : ℕ → ℚ)
    (playerUnits : List GameUnit) (playerBases : List Base)
    (enemyUnits : List GameUnit) (enemyBases : List Base) : CombatTickResult :=
  let s := engagementPass dist rng playerUnits playerBases enemyUnits enemyBases
  { updatedPlayerUnits := s.pUnits.filter (fun u => decide (0 < u.health)),
    updatedPlayerBases := s.pBases.filter (fun b => decide (0 < b.health)),
    updatedEnemyUnits := s.eUnits.filter (fun u => decide (0 < u.health)),
    updatedEnemyBases := s.eBases.filter (fun b => decide (0 < b.health)),
    combatLogs := s.combatLogs }

/-- C3: each of the four lists returned by `processCombatTick` contains
exactly the entities whose health after the engagement pass is strictly
positive — an entity driven to exactly 0 health is excluded, one still at
positive health (e.g. 1) is retained. -/
theorem processCombatTick_returns_live_entities
    (dist : Coordinates ℚ → Coordinates ℚ → ℚ) (rng : ℕ → ℚ)
    (playerUnits : List GameUnit) (playerBases : List Base)
    (enemyUnits : List GameUnit) (enemyBases : List Base) :
    (∀ u : GameUnit,
      u ∈ (processCombatTick dist rng playerUnits playerBases enemyUnits enemyBases).updatedPlayerUnits ↔
      u ∈ (engagementPass dist rng playerUnits playerBases enemyUnits enemyBases).pUnits ∧
        0 < u.health) ∧
    (∀ b : Base,
      b ∈ (processCombatTick dist rng playerUnits playerBases enemyUnits enemyBases).updatedPlayerBases ↔
      b ∈ (engagementPass dist rng playerUnits playerBases enemyUnits enemyBases).pBases ∧
        0 < b.health) ∧
    (∀ u : GameUnit,
      u ∈ (processCombatTick dist rng playerUnits playerBases enemyUnits enemyBases).updatedEnemyUnits ↔
      u ∈ (engagementPass dist rng playerUnits playerBases enemyUnits enemyBases).eUnits ∧
        0 < u.health) ∧
    (∀ b : Base,
      b ∈ (processCombatTick dist rng playerUnits playerBases enemyUnits enemyBases).updatedEnemyBases ↔
      b ∈ (engagementPass dist rng playerUnits playerBases enemyUnits enemyBases).eBases ∧
        0 < b.health) := by
  refine ⟨fun u => ?_, fun b => ?_, fun u => ?_, fun b => ?_⟩ <;>
    simp [processCombatTick, List.mem_filter]

/-- Ghost-step relation: one loop iteration either leaves the engagement
trace and fought set unchanged, or records exactly one new engagement whose
attacker was not yet in the fought set, adding both participants to it. -/
def ghostStep (s s' : CombatTickState) : Prop :=
  (s'.engagements = s.engagements ∧ s'.fought = s.fought) ∨
  ∃ a t, a ∉ s.fought ∧ s'.engagements = s.engagements ++ [(a, t)] ∧
    s'.fought = s.fought ++ [a, t]

/-- A base strike never touches the engagement trace or the fought set. -/
theorem playerBaseStrike_ghost (dist : Coordinates ℚ → Coordinates ℚ → ℚ) (rng : ℕ → ℚ)
    (s : CombatTickState) (pu : GameUnit) :
    (playerBaseStrike dist rng s pu).engagements = s.engagements ∧
    (playerBaseStrike dist rng s pu).fought = s.fought := by
  unfold playerBaseStrike
  split
  · exact ⟨rfl, rfl⟩
  · split
    · exact ⟨rfl, rfl⟩
    · split
      · exact ⟨rfl, rfl⟩
      · exact ⟨rfl, rfl⟩

/-- A unit-vs-unit engagement of a player unit either does nothing or
records the pair and marks both ids fought. -/
theorem playerEngage_ghost (dist : Coordinates ℚ → Coordinates ℚ → ℚ) (rng : ℕ → ℚ)
    (s : CombatTickState) (i : ℕ) (pu : GameUnit) :
    ((playerEngage dist rng s i pu).engagements = s.engagements ∧
      (playerEngage dist rng s i pu).fought = s.fought) ∨
    ∃ t, (playerEngage dist rng s i pu).engagements = s.engagements ++ [(pu.id, t)] ∧
      (playerEngage dist rng s i pu).fought = s.fought ++ [pu.id, t] := by
  unfold playerEngage
  split
  · exact Or.inl ⟨rfl, rfl⟩
  · split
    · exact Or.inl ⟨rfl, rfl⟩
    · exact Or.inr ⟨_, rfl, rfl⟩

/-- One first-loop iteration satisfies the ghost-step relation. -/
theorem playerUnitStep_ghost (dist : Coordinates ℚ → Coordinates ℚ → ℚ) (rng : ℕ → ℚ)
    (s : CombatTickState) (i : ℕ) : ghostStep s (playerUnitStep dist rng s i) := by
  unfold playerUnitStep
  split
  · exact Or.inl ⟨rfl, rfl⟩
  next pu _ =>
    split
    · exact Or.inl ⟨rfl, rfl⟩
    next hguard =>
      have hnf : pu.id ∉ s.fought := fun hmem => hguard (Or.inl hmem)
      obtain ⟨h1, h2⟩ := playerBaseStrike_ghost dist rng (playerEngage dist rng s i pu) pu
      rcases playerEngage_ghost dist rng s i pu with ⟨e1, e2⟩ | ⟨t, e1, e2⟩
      · exact Or.inl ⟨by rw [h1, e1], by rw [h2, e2]⟩
      · exact Or.inr ⟨pu.id, t, hnf, by rw [h1, e1], by rw [h2, e2]⟩

/-- A base strike of an enemy unit never touches the ghost fields. -/
theorem enemyBaseStrike_ghost (dist : Coordinates ℚ → Coordinates ℚ → ℚ) (rng : ℕ → ℚ)
    (s : CombatTickState) (eu : GameUnit) :
    (enemyBaseStrike dist rng s eu).engagements = s.engagements ∧
    (enemyBaseStrike dist rng s eu).fought = s.fought := by
  unfold enemyBaseStrike
  split
  · exact ⟨rfl, rfl⟩
  · split
    · exact ⟨rfl, rfl⟩
    · split
      · exact ⟨rfl, rfl⟩
      · exact ⟨rfl, rfl⟩

/-- A unit-vs-unit engagement of an enemy unit either does nothing or
records the pair and marks both ids fought. -/
theorem enemyEngage_ghost (dist : Coordinates ℚ → Coordinates ℚ → ℚ) (rng : ℕ → ℚ)
    (s : CombatTickState) (i : ℕ) (eu : GameUnit) :
    ((enemyEngage dist rng s i eu).engagements = s.engagements ∧
      (enemyEngage dist rng s i eu).fought = s.fought) ∨
    ∃ t, (enemyEngage dist rng s i eu).engagements = s.engagements ++ [(eu.id, t)] ∧
      (enemyEngage dist rng s i eu).fought = s.fought ++ [eu.id, t] := by
  unfold enemyEngage
  split
  · exact Or.inl ⟨rfl, rfl⟩
  · split
    · exact Or.inl ⟨rfl, rfl⟩
    · exact Or.inr ⟨_, rfl, rfl⟩

/-- One second-loop iteration satisfies the ghost-step relation. -/
theorem enemyUnitStep_ghost (dist : Coordinates ℚ → Coordinates ℚ → ℚ) (rng : ℕ → ℚ)
    (s : CombatTickState) (i : ℕ) : ghostStep s (enemyUnitStep dist rng s i) := by
  unfold enemyUnitStep
  split
  · exact Or.inl ⟨rfl, rfl⟩
  next eu _ =>
    split
    · exact Or.inl ⟨rfl, rfl⟩
    next hguard =>
      have hnf : eu.id ∉ s.fought := fun hmem => hguard (Or.inl hmem)
      obtain ⟨h1, h2⟩ := enemyBaseStrike_ghost dist rng (enemyEngage dist rng s i eu) eu
      rcases enemyEngage_ghost dist rng s i eu with ⟨e1, e2⟩ | ⟨t, e1, e2⟩
      · exact Or.inl ⟨by rw [h1, e1], by rw [h2, e2]⟩
      · exact Or.inr ⟨eu.id, t, hnf, by rw [h1, e1], by rw [h2, e2]⟩

/-- Invariant: every participant recorded so far is in the fought set, and
no engagement's attacker appeared in any earlier engagement. -/
def okTrace (s : CombatTickState) : Prop :=
  (∀ e ∈ s.engagements, e.1 ∈ s.fought ∧ e.2 ∈ s.fought) ∧
  List.Pairwise (fun e e' : String × String => e'.1 ≠ e.1 ∧ e'.1 ≠ e.2) s.engagements

/-- A ghost step preserves the trace invariant. -/
theorem ghostStep_okTrace {s s' : CombatTickState} (hg : ghostStep s s') (h : okTrace s) :
    okTrace s' := by
  rcases hg with ⟨he, hf⟩ | ⟨a, t, ha, he, hf⟩
  · exact ⟨by rw [he, hf]; exact h.1, by rw [he]; exact h.2⟩
  · constructor
    · intro e hmem
      rw [he] at hmem
      rw [hf]
      rcases List.mem_append.mp hmem with h1 | h1
      · have h2 := h.1 e h1
        exact ⟨List.mem_append.mpr (Or.inl h2.1), List.mem_append.mpr (Or.inl h2.2)⟩
      · have h2 : e = (a, t) := by simpa using h1
        subst h2
        exact ⟨by simp, by simp⟩
    · rw [he]
      refine List.pairwise_append.mpr ⟨h.2, List.pairwise_singleton _ _, ?_⟩
      intro e hmem e' hmem'
      have h2 : e' = (a, t) := by simpa using hmem'
      subst h2
      have hef := h.1 e hmem
      refine ⟨fun hc => ha ?_, fun hc => ha ?_⟩
      · have h3 : a = e.1 := hc
        rw [h3]; exact hef.1
      · have h3 : a = e.2 := hc
        rw [h3]; exact hef.2

/-- Folding any ghost-step function over a list of indices preserves the
trace invariant. -/
theorem foldl_okTrace (step : CombatTickState → ℕ → CombatTickState)
    (hstep : ∀ s i, ghostStep s (step s i)) :
    ∀ (l : List ℕ) (s : CombatTickState), okTrace s → okTrace (l.foldl step s) := by
  intro l
  induction l with
  | nil => exact fun s h => h
  | cons x xs ih => exact fun s h => ih _ (ghostStep_okTrace (hstep s x) h)

/-- C6 (amended): within one `processCombatTick` call a unit never attacks
twice — once a unit's id is recorded as having fought, it is never again
the attacking side of a unit-vs-unit engagement; it may however still be
selected as the defender of a later engagement. -/
theorem processCombatTick_attacker_fights_once
    (dist : Coordinates ℚ → Coordinates ℚ → ℚ) (rng : ℕ → ℚ)
    (playerUnits : List GameUnit) (playerBases : List Base)
    (enemyUnits : List GameUnit) (enemyBases : List Base) :
    List.Pairwise (fun e e' : String × String => e'.1 ≠ e.1 ∧ e'.1 ≠ e.2)
      (engagementPass dist rng playerUnits playerBases enemyUnits enemyBases).engagements := by
  unfold engagementPass
  exact (foldl_okTrace (enemyUnitStep dist rng) (enemyUnitStep_ghost dist rng) _ _
    (foldl_okTrace (playerUnitStep dist rng) (playerUnitStep_ghost dist rng) _ _
      ⟨by simp, by simp⟩)).2

/-- Concrete player unit for the C6 counterexample. -/
def cexPlayerOne : GameUnit :=
  { id := "p1", templateType := .infantry, name := "P1",
    position := { latitude := 0, longitude := 0 }, faction := .player,
    health := 100, maxHealth := 100, status := .idle, createdAt := 0 }

/-- Second concrete player unit for the C6 counterexample. -/
def cexPlayerTwo : GameUnit :=
  { cexPlayerOne with id := "p2", name := "P2" }

/-- Concrete enemy unit for the C6 counterexample. -/
def cexEnemyOne : GameUnit :=
  { id := "e1", templateType := .infantry, name := "E1",
    position := { latitude := 0, longitude := 0 }, faction := .ai,
    health := 100, maxHealth := 100, status := .defending, createdAt := 0 }

/-- C6 counterexample: with two player units in range of one enemy unit the
enemy is resolved as the selected defender of two engagements in the same
call — its id is recorded as fought after the first engagement, yet the
target filter checks only health, so the engagement trace is not
participant-disjoint and the claim as stated fails. -/
theorem processCombatTick_unit_refought_cex :
    ¬ List.Pairwise
        (fun e e' : String × String => e'.1 ≠ e.1 ∧ e'.1 ≠ e.2 ∧ e'.2 ≠ e.1 ∧ e'.2 ≠ e.2)
        (engagementPass (fun _ _ => 0) (fun _ => 1/2)
          [cexPlayerOne, cexPlayerTwo] [] [cexEnemyOne] []).engagements := by
  have h : (engagementPass (fun _ _ => 0) (fun _ => 1/2)
      [cexPlayerOne, cexPlayerTwo] [] [cexEnemyOne] []).engagements
      = [("p1", "e1"), ("p2", "e1")] := by
    norm_num +decide [String.reduceEq, engagementPass, playerUnitStep, playerEngage,
      playerBaseStrike, enemyUnitStep, enemyEngage, enemyBaseStrike, resolveUnitCombat,
      resolveUnitVsBaseCombat, areUnitsInRange, isUnitInBaseRange, getDomainBonus,
      orFalsy, UNIT_TEMPLATES, ENGAGEMENT_RANGE_KM, cexPlayerOne, cexPlayerTwo,
      cexEnemyOne, List.findIdx?, List.range_succ]
  rw [h]
  decide

/-! ## Retaliation director (src `engine/retaliation`) -/

/-- One candidate step of the nearest-target scan in
`getRetaliationMovements`.  JavaScript's `Infinity` initial distance is
modelled by `none`; a candidate replaces the current best exactly when its
distance is strictly smaller (a finite distance always beats `Infinity`). -/
def closerCandidate (best : Option (Coordinates ℚ × ℚ)) (pos : Coordinates ℚ) (d : ℚ) :
    Option (Coordinates ℚ × ℚ) :=
  match best with
  | none => some (pos, d)
  | some (bp, bd) => if d < bd then some (pos, d) else some (bp, bd)

/-- The nearest-player-target scan of src `getRetaliationMovements`:
player units are scanned first, then player bases, each compared by the
strict `<` of the source. -/
def nearestPlayerTarget (dist : Coordinates ℚ → Coordinates ℚ → ℚ) (aiUnit : GameUnit)
    (playerUnits : List GameUnit) (playerBases : List Base) : Option (Coordinates ℚ × ℚ) :=
  let afterUnits := playerUnits.foldl
    (fun best p => closerCandidate best p.position (dist aiUnit.position p.position)) none
  playerBases.foldl
    (fun best b => closerCandidate best b.position (dist aiUnit.position b.position)) afterUnits

/-- Loop body of src `getRetaliationMovements`: `moved` counts moved units
(the `break` at the cap is the first guard), units already `moving` are
skipped, and a unit is moved iff its nearest target is strictly within
500 km. -/
def getRetaliationMovementsGo (dist : Coordinates ℚ → Coordinates ℚ → ℚ)
    (playerUnits : List GameUnit) (playerBases : List Base) (maxUnitsToMove : ℕ) :
    List GameUnit → ℕ → List GameUnit → List GameUnit
  | [], _, movedUnits => movedUnits
  | aiUnit :: rest, moved, movedUnits =>
    if maxUnitsToMove ≤ moved then movedUnits
    else if aiUnit.status = .moving then
      getRetaliationMovementsGo dist playerUnits playerBases maxUnitsToMove rest moved movedUnits
    else
      match nearestPlayerTarget dist aiUnit playerUnits playerBases with
      | some (tgt, d) =>
        if d < 500 then
          getRetaliationMovementsGo dist playerUnits playerBases maxUnitsToMove rest (moved + 1)
            (movedUnits ++ [{ aiUnit with destination := some tgt, status := .moving }])
        else
          getRetaliationMovementsGo dist playerUnits playerBases maxUnitsToMove rest moved movedUnits
      | none =>
        getRetaliationMovementsGo dist playerUnits playerBases maxUnitsToMove rest moved movedUnits

/-- src `getRetaliationMovements` (default cap 5). -/
def getRetaliationMovements (dist : Coordinates ℚ → Coordinates ℚ → ℚ)
    (aiUnits playerUnits : List GameUnit) (playerBases : List Base)
    (maxUnitsToMove : ℕ := 5) : List GameUnit :=
  getRetaliationMovementsGo dist playerUnits playerBases maxUnitsToMove aiUnits 0 []

/-- Loop invariant for `getRetaliationMovementsGo`: the result extends the
accumulator by at most `max - moved` units, each derived from a not-moving
unit of the remaining list whose nearest target is strictly within 500 km. -/
theorem getRetaliationMovementsGo_spec (dist : Coordinates ℚ → Coordinates ℚ → ℚ)
    (playerUnits : List GameUnit) (playerBases : List Base) (maxUnitsToMove : ℕ) :
    ∀ (l : List GameUnit) (moved : ℕ) (acc : List GameUnit),
      (getRetaliationMovementsGo dist playerUnits playerBases maxUnitsToMove l moved acc).length ≤
        acc.length + (maxUnitsToMove - moved) ∧
      ∀ m ∈ getRetaliationMovementsGo dist playerUnits playerBases maxUnitsToMove l moved acc,
        m ∈ acc ∨ ∃ u ∈ l, u.status ≠ .moving ∧ ∃ tgt d,
          nearestPlayerTarget dist u playerUnits playerBases = some (tgt, d) ∧ d < 500 ∧
          m = { u with destination := some tgt, status := .moving } := by
  intro l
  induction l with
  | nil =>
    intro moved acc
    exact ⟨by simp [getRetaliationMovementsGo], by
      intro m hm
      exact Or.inl (by simpa [getRetaliationMovementsGo] using hm)⟩
  | cons aiUnit rest ih =>
    intro moved acc
    unfold getRetaliationMovementsGo
    by_cases hcap : maxUnitsToMove ≤ moved
    · rw [if_pos hcap]
      exact ⟨by omega, fun m hm => Or.inl hm⟩
    · rw [if_neg hcap]
      by_cases hmov : aiUnit.status = .moving
      · rw [if_pos hmov]
        obtain ⟨hlen, hmem⟩ := ih moved acc
        refine ⟨hlen, fun m hm => ?_⟩
        rcases hmem m hm with h | ⟨u, hu, hrest⟩
        · exact Or.inl h
        · exact Or.inr ⟨u, List.mem_cons_of_mem _ hu, hrest⟩
      · rw [if_neg hmov]
        cases htgt : nearestPlayerTarget dist aiUnit playerUnits playerBases with
        | none =>
          obtain ⟨hlen, hmem⟩ := ih moved acc
          refine ⟨hlen, fun m hm => ?_⟩
          rcases hmem m hm with h | ⟨u, hu, hrest⟩
          · exact Or.inl h
          · exact Or.inr ⟨u, List.mem_cons_of_mem _ hu, hrest⟩
        | some td =>
          obtain ⟨tgt, d⟩ := td
          dsimp only
          by_cases hd : d < 500
          · rw [if_pos hd]
            obtain ⟨hlen, hmem⟩ := ih (moved + 1)
              (acc ++ [{ aiUnit with destination := some tgt, status := .moving }])
            have hlen2 : (getRetaliationMovementsGo dist playerUnits playerBases maxUnitsToMove
                rest (moved + 1)
                (acc ++ [{ aiUnit with destination := some tgt, status := .moving }])).length ≤
                acc.length + 1 + (maxUnitsToMove - (moved + 1)) := by
              simpa using hlen
            refine ⟨by omega, fun m hm => ?_⟩
            rcases hmem m hm with h | ⟨u, hu, hrest⟩
            · rcases List.mem_append.mp h with h2 | h2
              · exact Or.inl h2
              · have h3 : m = { aiUnit with destination := some tgt, status := .moving } := by
                  simpa using h2
                exact Or.inr ⟨aiUnit, List.mem_cons_self _ _, hmov, tgt, d, htgt, hd, h3⟩
            · exact Or.inr ⟨u, List.mem_cons_of_mem _ hu, hrest⟩
          · rw [if_neg hd]
            obtain ⟨hlen, hmem⟩ := ih moved acc
            refine ⟨hlen, fun m hm => ?_⟩
            rcases hmem m hm with h | ⟨u, hu, hrest⟩
            · exact Or.inl h
            · exact Or.inr ⟨u, List.mem_cons_of_mem _ hu, hrest⟩

/-- C9 (amended): `getRetaliationMovements` returns at most
`maxUnitsToMove` units, each a copy of an input AI unit whose status was
not `moving` (idle, attacking, defending or retreating alike), with
destination set to the nearest player unit or base position and status set
to `moving`, included only when that nearest target is strictly within
500 km. -/
theorem getRetaliationMovements_spec (dist : Coordinates ℚ → Coordinates ℚ → ℚ)
    (aiUnits playerUnits : List GameUnit) (playerBases : List Base) (maxUnitsToMove : ℕ) :
    (getRetaliationMovements dist aiUnits playerUnits playerBases maxUnitsToMove).length ≤
      maxUnitsToMove ∧
    ∀ m ∈ getRetaliationMovements dist aiUnits playerUnits playerBases maxUnitsToMove,
      ∃ u ∈ aiUnits, u.status ≠ .moving ∧ ∃ tgt d,
        nearestPlayerTarget dist u playerUnits playerBases = some (tgt, d) ∧ d < 500 ∧
        m = { u with destination := some tgt, status := .moving } := by
  obtain ⟨hlen, hmem⟩ := getRetaliationMovementsGo_spec dist playerUnits playerBases
    maxUnitsToMove aiUnits 0 []
  refine ⟨by simpa [getRetaliationMovements] using hlen, fun m hm => ?_⟩
  rcases hmem m hm with h | h
  · simp at h
  · exact h

/-- Concrete non-idle AI unit for the C9 counterexample. -/
def cexDefendingUnit : GameUnit :=
  { id := "d1", templateType := .infantry, name := "D1",
    position := { latitude := 10, longitude := 10 }, faction := .ai,
    health := 100, maxHealth := 100, status := .defending, createdAt := 0 }

/-- Concrete player unit serving as the nearby target in the C9
counterexample. -/
def cexPlayerTarget : GameUnit :=
  { id := "pt", templateType := .infantry, name := "PT",
    position := { latitude := 10, longitude := 10 }, faction := .player,
    health := 100, maxHealth := 100, status := .idle, createdAt := 0 }

/-- C9 counterexample: a `defending` (not idle) AI unit standing next to a
player unit is moved by `getRetaliationMovements`, so the returned units
are not all copies of idle input units as the claim states. -/
theorem getRetaliationMovements_moves_nonidle_cex :
    ¬ (∀ m ∈ getRetaliationMovements (fun _ _ => 0) [cexDefendingUnit] [cexPlayerTarget] [] 5,
        ∃ u ∈ [cexDefendingUnit], u.status = .idle ∧
          ∃ tgt, m = { u with destination := some tgt, status := UnitStatus.moving }) := by
  intro hall
  have hres : getRetaliationMovements (fun _ _ => 0) [cexDefendingUnit] [cexPlayerTarget] [] 5
      = [{ cexDefendingUnit with
            destination := some { latitude := 10, longitude := 10 },
            status := .moving }] := by
    norm_num +decide [getRetaliationMovements, getRetaliationMovementsGo, nearestPlayerTarget,
      closerCandidate, cexDefendingUnit, cexPlayerTarget]
  rw [hres] at hall
  obtain ⟨u, hu, hidle, -⟩ := hall _ (List.mem_singleton_self _)
  have h2 : u = cexDefendingUnit := by simpa using hu
  rw [h2] at hidle
  exact absurd hidle (by simp [cexDefendingUnit])

/-- Witness for C9's amended theorem: at a concrete input with one nearby
AI unit the cap bound holds and the returned unit is a not-moving input
unit re-targeted at the nearest player position. -/
theorem getRetaliationMovements_spec_witness :
    (getRetaliationMovements (fun _ _ => 0) [cexDefendingUnit] [cexPlayerTarget] [] 5).length ≤ 5 :=
  (getRetaliationMovements_spec (fun _ _ => 0) [cexDefendingUnit] [cexPlayerTarget] [] 5).1

/-! ## Country registry (src `data/countries`) -/

/-- Country polygon data (src `data/countries` CountryData).  `coordinates`
is a MultiPolygon: a list of polygons, each a list of rings, each ring a
list of (x = longitude, y = latitude) pairs. -/
structure CountryData where
  id : String
  name : String
  coordinates : List (List (List (ℚ × ℚ)))
deriving DecidableEq, Repr

/-- src `getFallbackCountries` / `COUNTRIES`: the fallback country set. -/
def COUNTRIES : List CountryData :=
  [ { id := "usa", name := "United States", coordinates := [[[(-125, 49), (-125, 25), (-100, 25), (-80, 25), (-80, 45), (-70, 45), (-70, 49), (-125, 49)]]] },
    { id := "can", name := "Canada", coordinates := [[[(-141, 70), (-141, 49), (-70, 49), (-55, 50), (-55, 70), (-141, 70)]]] },
    { id := "mex", name := "Mexico", coordinates := [[[(-117, 32), (-117, 15), (-87, 15), (-87, 22), (-97, 25), (-105, 32), (-117, 32)]]] },
    { id := "bra", name := "Brazil", coordinates := [[[(-74, 5), (-74, -10), (-60, -15), (-55, -25), (-48, -28), (-35, -10), (-35, 5), (-50, 5), (-74, 5)]]] },
    { id := "gbr", name := "United Kingdom", coordinates := [[[(-8, 60), (-8, 50), (2, 50), (2, 60), (-8, 60)]]] },
    { id := "fra", name := "France", coordinates := [[[(-5, 51), (-5, 42), (8, 42), (8, 51), (-5, 51)]]] },
    { id := "deu", name := "Germany", coordinates := [[[(6, 55), (6, 47), (15, 47), (15, 55), (6, 55)]]] },
    { id := "rus", name := "Russia", coordinates := [[[(30, 72), (30, 45), (180, 45), (180, 72), (30, 72)]]] },
    { id := "chn", name := "China", coordinates := [[[(73, 53), (73, 18), (135, 18), (135, 53), (73, 53)]]] },
    { id := "ind", name := "India", coordinates := [[[(68, 35), (68, 8), (97, 8), (97, 35), (68, 35)]]] },
    { id := "jpn", name := "Japan", coordinates := [[[(129, 46), (129, 31), (146, 31), (146, 46), (129, 46)]]] },
    { id := "aus", name := "Australia", coordinates := [[[(113, -10), (113, -44), (154, -44), (154, -10), (113, -10)]]] },
    { id := "zaf", name := "South Africa", coordinates := [[[(16, -22), (16, -35), (33, -35), (33, -22), (16, -22)]]] },
    { id := "egy", name := "Egypt", coordinates := [[[(25, 32), (25, 22), (36, 22), (36, 32), (25, 32)]]] },
    { id := "sau", name := "Saudi Arabia", coordinates := [[[(34, 32), (34, 16), (55, 16), (55, 32), (34, 32)]]] },
    { id := "tur", name := "Turkey", coordinates := [[[(26, 42), (26, 36), (44, 36), (44, 42), (26, 42)]]] },
    { id := "kor", name := "South Korea", coordinates := [[[(125, 38), (125, 33), (130, 33), (130, 38), (125, 38)]]] } ]

/-- src `isPointInRing`: ray casting over one ring; iteration `i` pairs the
vertex at `i` with the previous vertex (`ring.length - 1` for `i = 0`).
The division is guarded exactly as in the source: when the two y values sit
on the same side of `lat` the first conjunct is false. -/
def isPointInRing (lat lng : ℚ) (ring : List (ℚ × ℚ)) : Bool :=
  (List.range ring.length).foldl
    (fun inside i =>
      let j := if i = 0 then ring.length - 1 else i - 1
      match ring.get? i, ring.get? j with
      | some (xi, yi), some (xj, yj) =>
        if ((decide (lat < yi)) != (decide (lat < yj))) &&
            decide (lng < (xj - xi) * (lat - yi) / (yj - yi) + xi) then
          !inside
        else inside
      | _, _ => inside)
    false

/-- src `isPointInCountry`: a point is contained when it lies in some
polygon's outer ring (of at least 3 vertices) without lying in any of that
polygon's hole rings; malformed polygons are skipped (fail closed). -/
def isPointInCountry (lat lng : ℚ) (country : CountryData) : Bool :=
  country.coordinates.any (fun polygon =>
    match polygon.head? with
    | none => false
    | some ring =>
      if ring.length < 3 then false
      else if isPointInRing lat lng ring then
        !(polygon.tail.any (fun hole =>
          if 0 < hole.length then isPointInRing lat lng hole else false))
      else false)

/-- src `findCountryAtPosition`: first containing country, if any. -/
def findCountryAtPosition (lat lng : ℚ) : Option CountryData :=
  COUNTRIES.find? (fun country => isPointInCountry lat lng country)

/-! ## Game store state and player commands (src `store/gameStore`) -/

/-- Log classification (src `types/game` GameLog.type). -/
inductive LogType where
  | info | warning | combat | intel | production | movement
deriving DecidableEq, Repr

/-- Tagged log entry (src `types/game` GameLog). -/
structure GameLog where
  id : String
  timestamp : ℕ
  type : LogType
  message : String
  position : Option (Coordinates ℚ) := none
deriving DecidableEq, Repr

/-- Missile catalog keys (src `types/game` MissileType). -/
inductive MissileType where
  | tactical | cruise | icbm
deriving DecidableEq, Repr

/-- Static missile template (src `types/game` MissileTemplate). -/
structure MissileTemplate where
  type : MissileType
  name : String
  range : ℚ
  damage : ℚ
  cost : ℚ
  flightTime : ℕ
deriving DecidableEq, Repr

/-- src `MISSILE_TEMPLATES`. -/
def MISSILE_TEMPLATES : MissileType → MissileTemplate
  | .tactical => { type := .tactical, name := "Tactical Missile", range := 500, damage := 50, cost := 100, flightTime := 3 }
  | .cruise => { type := .cruise, name := "Cruise Missile", range := 2500, damage := 80, cost := 300, flightTime := 5 }
  | .icbm => { type := .icbm, name := "ICBM", range := 12000, damage := 100, cost := 1000, flightTime := 8 }

/-- Passive territory influence overlay (src `types/game`). -/
structure TerritoryInfluence where
  position : Coordinates ℚ
  faction : Faction
  strength : ℚ
  radius : ℚ
deriving DecidableEq, Repr

/-- In-flight missile record (src `store/gameStore` MissileInFlight). -/
structure MissileInFlight where
  id : String
  startPosition : Coordinates ℚ
  targetPosition : Coordinates ℚ
  missileType : MissileType
  launchTick : ℕ
  arrivalTick : ℕ
deriving DecidableEq, Repr

/-- Explosion record (src `store/gameStore` Explosion). -/
structure Explosion where
  id : String
  position : Coordinates ℚ
  startTick : ℕ
  duration : ℕ
deriving DecidableEq, Repr

/-- Missile-targeting UI state (src `store/gameStore`). -/
structure MissileTargetingState where
  isActive : Bool
  baseId : Option String
  missileType : Option MissileType
  targetPosition : Option (Coordinates ℚ)
deriving DecidableEq, Repr

/-- The slice of the store state read and written by the embedded commands
and the missile phase of the tick.  `nextId` is the deterministic supply
standing in for `uuidv4()`. -/
structure GameState where
  tick : ℕ
  hq : Option Base
  bases : List Base
  units : List GameUnit
  territories : List TerritoryInfluence
  logs : List GameLog
  resources : ℚ
  homeCountryId : Option String
  struckCountryIds : List String
  missileTargeting : MissileTargetingState
  missilesInFlight : List MissileInFlight
  explosions : List Explosion
  selectedBase : Option Base
  nextId : ℕ
deriving Repr

/-- Deterministic stand-in for `uuidv4()`. -/
def mkId (n : ℕ) : String := "uuid-" ++ toString n

/-- src `addLog`: prepend one log entry, keeping the last 100. -/
def addLog (s : GameState) (type : LogType) (message : String)
    (position : Option (Coordinates ℚ) := none) : GameState :=
  let log : GameLog :=
    { id := mkId s.nextId, timestamp := s.tick, type := type,
      message := message, position := position }
  { s with logs := (log :: s.logs).take 100, nextId := s.nextId + 1 }

/-- Per-base-type configuration (src `types/game` BASE_CONFIG; `placeBase`
inlines a field-for-field identical copy of this table). -/
structure BaseConfig where
  name : String
  cost : ℚ
  influenceRadius : ℚ
  symbol : String
deriving DecidableEq, Repr

/-- src `BASE_CONFIG`. -/
def BASE_CONFIG : BaseType → BaseConfig
  | .hq => { name := "Headquarters", cost := 0, influenceRadius := 100, symbol := "HQ" }
  | .army => { name := "Army Base", cost := 500, influenceRadius := 75, symbol := "ARMY" }
  | .navy => { name := "Naval Base", cost := 600, influenceRadius := 100, symbol := "NAVY" }
  | .airforce => { name := "Air Force Base", cost := 700, influenceRadius := 150, symbol := "AF" }
  | .intelligence => { name := "Intelligence Center", cost := 400, influenceRadius := 200, symbol := "INTEL" }
  | .missile => { name := "Missile Silo", cost := 800, influenceRadius := 50, symbol := "MSL" }

/-- src `placeHQ`: reject with a warning when an HQ exists, otherwise create
the HQ base, its territory influence, and resolve the home country.
(The human-readable coordinate formatting of the log message is omitted;
log text carries no game logic.) -/
def placeHQ (position : Coordinates ℚ) (s : GameState) : GameState :=
  if s.hq.isSome then
    addLog s .warning "HQ already placed. Only one HQ allowed."
  else
    let hq : Base :=
      { id := mkId s.nextId, name := "Command Headquarters", type := .hq,
        position := position, faction := .player, health := 1000, maxHealth := 1000,
        productionCapacity := 2, influenceRadius := 100, createdAt := s.tick }
    let territory : TerritoryInfluence :=
      { position := position, faction := .player, strength := 100, radius := 100 }
    let homeCountry := findCountryAtPosition position.latitude position.longitude
    let s1 := { s with
      hq := some hq,
      bases := s.bases ++ [hq],
      territories := s.territories ++ [territory],
      homeCountryId := homeCountry.map (fun c => c.id),
      nextId := s.nextId + 1 }
    addLog s1 .info
      ("HQ established" ++ (match homeCountry with | some c => " in " ++ c.name | none => ""))
      (some position)

/-- src `placeBase`: reject with a warning when no HQ exists or funds are
insufficient; otherwise append the new base and its territory influence and
deduct the cost. -/
def placeBase (type : BaseType) (position : Coordinates ℚ) (s : GameState) : GameState :=
  if s.hq.isNone then
    addLog s .warning "Must place HQ first before building bases."
  else
    let config := BASE_CONFIG type
    if s.resources < config.cost then
      addLog s .warning ("Insufficient resources for " ++ config.name)
    else
      let base : Base :=
        { id := mkId s.nextId,
          name := config.name ++ " " ++ toString ((s.bases.filter (fun b => b.type = type)).length + 1),
          type := type, position := position, faction := .player,
          health := 500, maxHealth := 500, productionCapacity := 1,
          influenceRadius := config.influenceRadius, createdAt := s.tick }
      let territory : TerritoryInfluence :=
        { position := position, faction := .player, strength := 80, radius := config.influenceRadius }
      let s1 := { s with
        bases := s.bases ++ [base],
        territories := s.territories ++ [territory],
        resources := s.resources - config.cost,
        nextId := s.nextId + 1 }
      addLog s1 .production (config.name ++ " constructed") (some position)

/-- src `produceUnit`: silently ignore an unknown base id; reject with a
warning on insufficient funds (the source repeats this check twice, with
identical effect); otherwise append the unit and deduct its cost.  The
unknown-unit-type warning branch is unreachable here because the embedded
catalog is total on `UnitType`. -/
def produceUnit (baseId : String) (unitType : UnitType) (s : GameState) : GameState :=
  match s.bases.find? (fun b => decide (b.id = baseId)) with
  | none => s
  | some base =>
    let template := UNIT_TEMPLATES unitType
    if s.resources < template.cost then
      addLog s .warning ("Insufficient resources for " ++ template.name ++ ".")
    else
      let unit : GameUnit :=
        { id := mkId s.nextId,
          templateType := unitType,
          name := template.name ++ " " ++
            toString ((s.units.filter (fun u => u.templateType = unitType)).length + 1),
          position := base.position, faction := .player,
          health := 100, maxHealth := 100, status := .idle,
          parentBaseId := some baseId, createdAt := s.tick }
      let s1 := { s with
        units := s.units ++ [unit],
        resources := s.resources - template.cost,
        nextId := s.nextId + 1 }
      addLog s1 .production (unit.name ++ " produced at " ++ base.name) (some base.position)

/-- C8: invalid player commands leave the state unchanged except for one
appended warning log entry — a second HQ placement, and base placement or
unit production with insufficient funds, each return `addLog s warning msg`
(which touches only the log list and the id supply); a successful army-base
placement with sufficient funds appends exactly one base and decreases
resources by exactly its cost of 500. -/
theorem player_commands_validation (s : GameState) (pos : Coordinates ℚ) :
    (∀ (ty : LogType) (msg : String) (p : Option (Coordinates ℚ)),
      (addLog s ty msg p).hq = s.hq ∧ (addLog s ty msg p).bases = s.bases ∧
      (addLog s ty msg p).units = s.units ∧ (addLog s ty msg p).resources = s.resources ∧
      ∃ entry : GameLog, entry.type = ty ∧
        (addLog s ty msg p).logs = (entry :: s.logs).take 100) ∧
    (s.hq.isSome = true → ∃ msg, placeHQ pos s = addLog s .warning msg) ∧
    (∀ t : BaseType, s.hq.isSome = true → s.resources < (BASE_CONFIG t).cost →
      ∃ msg, placeBase t pos s = addLog s .warning msg) ∧
    (∀ (baseId : String) (unitType : UnitType) (base : Base),
      s.bases.find? (fun b => decide (b.id = baseId)) = some base →
      s.resources < (UNIT_TEMPLATES unitType).cost →
      ∃ msg, produceUnit baseId unitType s = addLog s .warning msg) ∧
    (s.hq.isSome = true → (500 : ℚ) ≤ s.resources →
      (∃ b, (placeBase .army pos s).bases = s.bases ++ [b]) ∧
      (placeBase .army pos s).resources = s.resources - 500) := by
  refine ⟨?_, ?_, ?_, ?_, ?_⟩
  · intro ty msg p
    exact ⟨rfl, rfl, rfl, rfl, _, rfl, rfl⟩
  · intro h
    unfold placeHQ
    rw [if_pos h]
    exact ⟨_, rfl⟩
  · intro t h hlt
    obtain ⟨v, hv⟩ := Option.isSome_iff_exists.mp h
    unfold placeBase
    rw [hv]
    rw [if_neg (by simp)]
    rw [if_pos hlt]
    exact ⟨_, rfl⟩
  · intro baseId unitType base hfind hlt
    unfold produceUnit
    rw [hfind]
    dsimp only
    rw [if_pos hlt]
    exact ⟨_, rfl⟩
  · intro h hres
    obtain ⟨v, hv⟩ := Option.isSome_iff_exists.mp h
    have hcost : (BASE_CONFIG .army).cost = 500 := rfl
    unfold placeBase
    rw [hv]
    rw [if_neg (by simp)]
    rw [if_neg (by rw [hcost]; exact not_lt.mpr hres)]
    exact ⟨⟨_, rfl⟩, rfl⟩

/-- Concrete HQ base for the C8 witness scenario (placed at New York). -/
def witnessHQ : Base :=
  { id := "hq0", name := "Command Headquarters", type := .hq,
    position := { latitude := 407/10, longitude := -74 }, faction := .player,
    health := 1000, maxHealth := 1000, productionCapacity := 2,
    influenceRadius := 100, createdAt := 0 }

/-- Concrete store state for the C8 witness scenario: HQ placed, one
trillion resources. -/
def witnessState : GameState :=
  { tick := 0, hq := some witnessHQ, bases := [witnessHQ], units := [],
    territories := [], logs := [], resources := 1000000000000,
    homeCountryId := none, struckCountryIds := [],
    missileTargeting := { isActive := false, baseId := none, missileType := none, targetPosition := none },
    missilesInFlight := [], explosions := [], selectedBase := none, nextId := 1 }

/-- Witness for C8 (the spec's New York scenario): with one trillion in
resources, building an army base appends one base and costs exactly 500,
while a second HQ placement degenerates to a single warning log. -/
theorem player_commands_validation_witness :
    (∃ b, (placeBase .army { latitude := 407/10, longitude := -74 } witnessState).bases
        = witnessState.bases ++ [b]) ∧
    (placeBase .army { latitude := 407/10, longitude := -74 } witnessState).resources
      = witnessState.resources - 500 ∧
    ∃ msg, placeHQ { latitude := 407/10, longitude := -74 } witnessState
      = addLog witnessState .warning msg := by
  have h := player_commands_validation witnessState { latitude := 407/10, longitude := -74 }
  have hsome : witnessState.hq.isSome = true := rfl
  have hres : (500 : ℚ) ≤ witnessState.resources := by norm_num [witnessState]
  obtain ⟨hok, hexists⟩ := h.2.2.2.2 hsome hres
  exact ⟨hok, hexists, h.2.1 hsome⟩

/-! ## Missile firing and the missile phase of the tick
(src `store/gameStore` fireMissile / runTick, src `engine/aiEnemy`
checkMissileStrikes) -/

/-- src `fireMissile`: requires an active targeting state with base and
missile type; validates funds; enqueues the missile with
`arrivalTick = launchTick + flightTime * 10`, marks the target country
struck, deducts the cost and resets targeting. -/
def fireMissile (targetPosition : Coordinates ℚ) (s : GameState) : GameState :=
  match s.missileTargeting.isActive, s.missileTargeting.baseId, s.missileTargeting.missileType with
  | true, some baseId, some missileType =>
    match s.bases.find? (fun b => decide (b.id = baseId)) with
    | none => s
    | some base =>
      let template := MISSILE_TEMPLATES missileType
      if s.resources < template.cost then
        addLog s .warning ("Insufficient resources for " ++ template.name)
      else
        let targetCountry := findCountryAtPosition targetPosition.latitude targetPosition.longitude
        let missile : MissileInFlight :=
          { id := mkId s.nextId, startPosition := base.position,
            targetPosition := targetPosition, missileType := missileType,
            launchTick := s.tick,
            arrivalTick := s.tick + template.flightTime * 10 }
        let newStruck :=
          match targetCountry with
          | some c => if c.id ∈ s.struckCountryIds then s.struckCountryIds else s.struckCountryIds ++ [c.id]
          | none => s.struckCountryIds
        let s1 := { s with
          resources := s.resources - template.cost,
          missilesInFlight := s.missilesInFlight ++ [missile],
          struckCountryIds := newStruck,
          missileTargeting := { isActive := false, baseId := none, missileType := none, targetPosition := none },
          selectedBase := none,
          nextId := s.nextId + 1 }
        addLog s1 .combat (template.name ++ " launched") (some targetPosition)
  | _, _, _ => s

/-- src `engine/aiEnemy` `checkMissileStrikes`: every base strictly within
the strike radius of some explosion, collected without duplicates.  The
haversine distance is the abstract `dist` parameter. -/
def checkMissileStrikes (dist : Coordinates ℚ → Coordinates ℚ → ℚ)
    (explosionPositions : List (Coordinates ℚ)) (enemyBases : List Base)
    (strikeRadius : ℚ := 100) : List Base :=
  explosionPositions.foldl
    (fun struck explosion =>
      enemyBases.foldl
        (fun struck base =>
          if dist explosion base.position < strikeRadius ∧ base ∉ struck then
            struck ++ [base]
          else struck)
        struck)
    []

/-- Result of the missile/explosion/strike portion of `runTick`. -/
structure MissilePhaseResult where
  remainingMissiles : List MissileInFlight
  newExplosions : List Explosion
  activeExplosions : List Explosion
  updatedAiBases : List Base
deriving Repr

/-- The `currentTick ≥ arrivalTick` arrival filter of src `runTick`. -/
def arrivedMissiles (currentTick : ℕ) (missilesInFlight : List MissileInFlight) :
    List MissileInFlight :=
  missilesInFlight.filter (fun m => decide (m.arrivalTick ≤ currentTick))

/-- The explosion records src `runTick` spawns for this tick's arrivals:
one per arrived missile, centered on its target, fixed 30-tick duration.
(`uuidv4()` for the explosion id is modelled as an id derived from the
arriving missile's id.) -/
def spawnExplosions (currentTick : ℕ) (arrived : List MissileInFlight) : List Explosion :=
  arrived.map (fun m =>
    { id := "expl-" ++ m.id, position := m.targetPosition,
      startTick := currentTick, duration := 30 })

/-- The strike-damage step of src `runTick`: when any base was struck, every
base whose id is among the struck ones loses a flat 200 health (floored at
0) and bases driven to 0 are filtered out; with no strikes the base list is
left untouched. -/
def strikeDamagedBases (strikes aiBases : List Base) : List Base :=
  if 0 < strikes.length then
    (aiBases.map (fun base =>
      if strikes.any (fun sb => decide (sb.id = base.id)) then
        { base with health := max 0 (base.health - 200) }
      else base)).filter (fun b => decide (0 < b.health))
  else aiBases

/-- The missile phase of src `runTick`: partition arrivals out of the
in-flight list, spawn a 30-tick explosion per arrival, expire explosions
whose 30 ticks have elapsed, and apply the strike damage from this tick's
new explosions. -/
def runTickMissilePhase (dist : Coordinates ℚ → Coordinates ℚ → ℚ) (currentTick : ℕ)
    (missilesInFlight : List MissileInFlight) (explosions : List Explosion)
    (aiBases : List Base) : MissilePhaseResult :=
  let newExplosions := spawnExplosions currentTick (arrivedMissiles currentTick missilesInFlight)
  { remainingMissiles := missilesInFlight.filter (fun m => decide (currentTick < m.arrivalTick)),
    newExplosions := newExplosions,
    activeExplosions := (explosions ++ newExplosions).filter
      (fun e => decide (currentTick - e.startTick < e.duration)),
    updatedAiBases := strikeDamagedBases
      (checkMissileStrikes dist (newExplosions.map (fun e => e.position)) aiBases 100) aiBases }

/-- Membership in the inner fold of `checkMissileStrikes`. -/
theorem checkStrikes_inner_mem (dist : Coordinates ℚ → Coordinates ℚ → ℚ)
    (pos : Coordinates ℚ) (radius : ℚ) :
    ∀ (bases acc : List Base) (b : Base),
      b ∈ bases.foldl
        (fun struck base =>
          if dist pos base.position < radius ∧ base ∉ struck then struck ++ [base] else struck)
        acc ↔
      b ∈ acc ∨ (b ∈ bases ∧ dist pos b.position < radius) := by
  intro bases
  induction bases with
  | nil => intro acc b; simp
  | cons base rest ih =>
    intro acc b
    simp only [List.foldl_cons]
    rw [ih]
    by_cases hc : dist pos base.position < radius ∧ base ∉ acc
    · rw [if_pos hc]
      simp only [List.mem_append, List.mem_singleton, List.mem_cons]
      constructor
      · rintro ((h | hb) | h)
        · exact Or.inl h
        · rcases hb with rfl | hnil
          · exact Or.inr ⟨Or.inl rfl, hc.1⟩
          · exact absurd hnil (List.not_mem_nil _)
        · exact Or.inr ⟨Or.inr h.1, h.2⟩
      · rintro (h | ⟨(rfl | h), hp⟩)
        · exact Or.inl (Or.inl h)
        · exact Or.inl (Or.inr (Or.inl rfl))
        · exact Or.inr ⟨h, hp⟩
    · rw [if_neg hc]
      simp only [List.mem_cons]
      constructor
      · rintro (h | h)
        · exact Or.inl h
        · exact Or.inr ⟨Or.inr h.1, h.2⟩
      · rintro (h | ⟨(rfl | h2), hp⟩)
        · exact Or.inl h
        · have hmem : b ∈ acc := by
            by_contra hna
            exact hc ⟨hp, hna⟩
          exact Or.inl hmem
        · exact Or.inr ⟨h2, hp⟩

/-- Membership in `checkMissileStrikes`: a base is struck iff it is within
the strike radius of some explosion position. -/
theorem checkMissileStrikes_mem (dist : Coordinates ℚ → Coordinates ℚ → ℚ)
    (positions : List (Coordinates ℚ)) (bases : List Base) (radius : ℚ) (b : Base) :
    b ∈ checkMissileStrikes dist positions bases radius ↔
      b ∈ bases ∧ ∃ pos ∈ positions, dist pos b.position < radius := by
  have main : ∀ (ps : List (Coordinates ℚ)) (acc : List Base),
      b ∈ ps.foldl
        (fun struck explosion =>
          bases.foldl
            (fun struck base =>
              if dist explosion base.position < radius ∧ base ∉ struck then struck ++ [base]
              else struck)
            struck)
        acc ↔
      b ∈ acc ∨ (b ∈ bases ∧ ∃ pos ∈ ps, dist pos b.position < radius) := by
    intro ps
    induction ps with
    | nil => intro acc; simp
    | cons pos rest ih =>
      intro acc
      simp only [List.foldl_cons]
      rw [ih, checkStrikes_inner_mem]
      simp only [List.mem_cons]
      constructor
      · rintro ((h | h) | ⟨hb, p, hp, hd⟩)
        · exact Or.inl h
        · exact Or.inr ⟨h.1, pos, Or.inl rfl, h.2⟩
        · exact Or.inr ⟨hb, p, Or.inr hp, hd⟩
      · rintro (h | ⟨hb, p, (rfl | hp), hd⟩)
        · exact Or.inl (Or.inl h)
        · exact Or.inl (Or.inr ⟨hb, hd⟩)
        · exact Or.inr ⟨hb, p, hp, hd⟩
  rw [checkMissileStrikes, main]
  simp

/-- C2: a missile fired at tick T is enqueued with
`arrivalTick = T + flightTime * 10` and resources drop by its cost; on each
tick a missile stays in flight iff `currentTick < arrivalTick` (so it is
removed at the first tick reaching its arrival); each arrival spawns
exactly one explosion of duration 30 at the target, kept only while fewer
than 30 ticks have elapsed since its start; and exactly the enemy bases
strictly within 100 km of one of this tick's new explosions take a flat
200 damage once (removed when that drives them to 0), while every other
base is untouched — old explosions affect nothing. -/
theorem missile_lifecycle (dist : Coordinates ℚ → Coordinates ℚ → ℚ)
    (s : GameState) (targetPosition : Coordinates ℚ)
    (bid : String) (mt : MissileType) (base : Base)
    (currentTick : ℕ) (missiles : List MissileInFlight) (explosions : List Explosion)
    (aiBases : List Base) :
    (s.missileTargeting.isActive = true → s.missileTargeting.baseId = some bid →
      s.missileTargeting.missileType = some mt →
      s.bases.find? (fun b => decide (b.id = bid)) = some base →
      (MISSILE_TEMPLATES mt).cost ≤ s.resources →
      (fireMissile targetPosition s).missilesInFlight = s.missilesInFlight ++
        [{ id := mkId s.nextId, startPosition := base.position,
           targetPosition := targetPosition, missileType := mt, launchTick := s.tick,
           arrivalTick := s.tick + (MISSILE_TEMPLATES mt).flightTime * 10 }] ∧
      (fireMissile targetPosition s).resources = s.resources - (MISSILE_TEMPLATES mt).cost) ∧
    (∀ m : MissileInFlight,
      m ∈ (runTickMissilePhase dist currentTick missiles explosions aiBases).remainingMissiles ↔
      m ∈ missiles ∧ currentTick < m.arrivalTick) ∧
    ((runTickMissilePhase dist currentTick missiles explosions aiBases).newExplosions.length
        = (arrivedMissiles currentTick missiles).length ∧
      ∀ e ∈ (runTickMissilePhase dist currentTick missiles explosions aiBases).newExplosions,
        e.duration = 30 ∧ e.startTick = currentTick ∧
        ∃ m ∈ missiles, m.arrivalTick ≤ currentTick ∧ e.position = m.targetPosition) ∧
    (∀ e : Explosion,
      e ∈ (runTickMissilePhase dist currentTick missiles explosions aiBases).activeExplosions ↔
      (e ∈ explosions ∨
        e ∈ (runTickMissilePhase dist currentTick missiles explosions aiBases).newExplosions) ∧
      currentTick - e.startTick < e.duration) ∧
    ((aiBases.map Base.id).Nodup → ∀ b ∈ aiBases,
      ((∃ e ∈ (runTickMissilePhase dist currentTick missiles explosions aiBases).newExplosions,
          dist e.position b.position < 100) →
        (200 < b.health →
          { b with health := b.health - 200 } ∈
            (runTickMissilePhase dist currentTick missiles explosions aiBases).updatedAiBases) ∧
        (b.health ≤ 200 →
          ∀ b' ∈ (runTickMissilePhase dist currentTick missiles explosions aiBases).updatedAiBases,
            b'.id ≠ b.id)) ∧
      (0 < b.health →
        ¬ (∃ e ∈ (runTickMissilePhase dist currentTick missiles explosions aiBases).newExplosions,
            dist e.position b.position < 100) →
        b ∈ (runTickMissilePhase dist currentTick missiles explosions aiBases).updatedAiBases)) := by
  have hNE : (runTickMissilePhase dist currentTick missiles explosions aiBases).newExplosions
      = spawnExplosions currentTick (arrivedMissiles currentTick missiles) := rfl
  have hUB : (runTickMissilePhase dist currentTick missiles explosions aiBases).updatedAiBases
      = strikeDamagedBases
          (checkMissileStrikes dist
            ((spawnExplosions currentTick (arrivedMissiles currentTick missiles)).map
              (fun e => e.position)) aiBases 100)
          aiBases := rfl
  refine ⟨?_, ?_, ⟨?_, ?_⟩, ?_, ?_⟩
  · intro hact hbid hmt hfind hfunds
    unfold fireMissile
    rw [hact, hbid, hmt]
    dsimp only
    rw [hfind]
    dsimp only
    rw [if_neg (not_lt.mpr hfunds)]
    exact ⟨rfl, rfl⟩
  · intro m
    simp [runTickMissilePhase, List.mem_filter]
  · rw [hNE]
    simp [spawnExplosions]
  · intro e he
    rw [hNE] at he
    obtain ⟨m, hm, rfl⟩ := List.mem_map.mp he
    obtain ⟨hmem, harr⟩ := List.mem_filter.mp hm
    exact ⟨rfl, rfl, m, hmem, by simpa using harr, rfl⟩
  · intro e
    show e ∈ (explosions ++ _).filter _ ↔ _
    rw [List.mem_filter, List.mem_append]
    simp [hNE]
  · intro hnodup b hb
    set strikes := checkMissileStrikes dist
      ((spawnExplosions currentTick (arrivedMissiles currentTick missiles)).map
        (fun e => e.position)) aiBases 100 with hstrikes
    have hmemiff := checkMissileStrikes_mem dist
      ((spawnExplosions currentTick (arrivedMissiles currentTick missiles)).map
        (fun e => e.position)) aiBases 100
    constructor
    · intro hhit
      obtain ⟨e, he, hd⟩ := hhit
      rw [hNE] at he
      have hbs : b ∈ strikes := by
        rw [hstrikes]
        exact (hmemiff b).mpr ⟨hb, e.position, List.mem_map_of_mem _ he, hd⟩
      have hlen : 0 < strikes.length := List.length_pos_of_mem hbs
      have hany : strikes.any (fun sb => decide (sb.id = b.id)) = true :=
        List.any_eq_true.mpr ⟨b, hbs, by simp⟩
      constructor
      · intro h200
        rw [hUB]
        unfold strikeDamagedBases
        rw [if_pos hlen]
        refine List.mem_filter.mpr ⟨?_, ?_⟩
        · refine List.mem_map.mpr ⟨b, hb, ?_⟩
          rw [if_pos hany]
          have hmax : max (0:ℚ) (b.health - 200) = b.health - 200 :=
            max_eq_right (by linarith)
          rw [hmax]
        · simp only [decide_eq_true_eq]
          show (0:ℚ) < b.health - 200
          linarith
      · intro h200 b' hb' hbid2
        rw [hUB] at hb'
        unfold strikeDamagedBases at hb'
        rw [if_pos hlen] at hb'
        obtain ⟨hmem', hhealth⟩ := List.mem_filter.mp hb'
        obtain ⟨a, ha, hfa⟩ := List.mem_map.mp hmem'
        have hid : b'.id = a.id := by rw [← hfa]; split <;> rfl
        have hab : a = b :=
          List.inj_on_of_nodup_map hnodup ha hb (by rw [← hid, hbid2])
        subst hab
        rw [if_pos hany] at hfa
        have hmax : max (0:ℚ) (a.health - 200) = 0 := max_eq_left (by linarith)
        rw [hmax] at hfa
        rw [← hfa] at hhealth
        simp at hhealth
    · intro hpos hnohit
      rw [hUB]
      unfold strikeDamagedBases
      by_cases hlen : 0 < strikes.length
      · rw [if_pos hlen]
        have hany : strikes.any (fun sb => decide (sb.id = b.id)) = false := by
          rw [List.any_eq_false]
          intro sb hsb
          simp only [decide_eq_true_eq]
          intro hsbid
          obtain ⟨hsbmem, p, hp, hd⟩ := (hmemiff sb).mp (hstrikes ▸ hsb)
          have hsb_eq : sb = b := List.inj_on_of_nodup_map hnodup hsbmem hb hsbid
          obtain ⟨e, he, hep⟩ := List.mem_map.mp hp
          refine hnohit ⟨e, ?_, ?_⟩
          · rw [hNE]; exact he
          · rw [hep, ← hsb_eq]
            exact hd
        refine List.mem_filter.mpr ⟨?_, by simpa using hpos⟩
        refine List.mem_map.mpr ⟨b, hb, ?_⟩
        rw [hany]
        simp
      · rw [if_neg hlen]
        exact hb

/-- Launch base for the C2 witness scenario. -/
def wLaunchBase : Base :=
  { id := "lb1", name := "Missile Silo 1", type := .missile,
    position := { latitude := 0, longitude := 0 }, faction := .player,
    health := 500, maxHealth := 500, productionCapacity := 1,
    influenceRadius := 50, createdAt := 0 }

/-- Store state for the C2 witness: cruise-missile targeting active. -/
def wFireState : GameState :=
  { tick := 0, hq := none, bases := [wLaunchBase], units := [],
    territories := [], logs := [], resources := 1000,
    homeCountryId := none, struckCountryIds := [],
    missileTargeting :=
      { isActive := true, baseId := some "lb1", missileType := some .cruise,
        targetPosition := none },
    missilesInFlight := [], explosions := [], selectedBase := none, nextId := 0 }

/-- In-flight cruise missile for the C2 witness (launched at tick 0,
flight time 5 s, so arrival tick 50). -/
def wMissile : MissileInFlight :=
  { id := "m1", startPosition := { latitude := 0, longitude := 0 },
    targetPosition := { latitude := 0, longitude := 0 },
    missileType := .cruise, launchTick := 0, arrivalTick := 50 }

/-- Enemy base at the target for the C2 witness. -/
def wEnemyBase : Base :=
  { id := "eb1", name := "Enemy Army Base", type := .army,
    position := { latitude := 0, longitude := 0 }, faction := .ai,
    health := 400, maxHealth := 500, productionCapacity := 1,
    influenceRadius := 75, createdAt := 0 }

/-- The explosion spawned for `wMissile` at its arrival tick 50. -/
def wExplosion : Explosion :=
  { id := "expl-m1", position := { latitude := 0, longitude := 0 },
    startTick := 50, duration := 30 }

/-- Witness for C2: firing the cruise missile at tick 0 enqueues arrival
tick 50 and costs 300; the missile is still in flight at tick 49 and gone
at tick 50, which spawns exactly one explosion; the enemy base at the
target takes the flat 200 damage; the explosion has expired by tick 80. -/
theorem missile_lifecycle_witness :
    (fireMissile { latitude := 0, longitude := 0 } wFireState).resources
        = wFireState.resources - 300 ∧
    (fireMissile { latitude := 0, longitude := 0 } wFireState).missilesInFlight
        = [{ id := mkId wFireState.nextId, startPosition := wLaunchBase.position,
             targetPosition := { latitude := 0, longitude := 0 }, missileType := .cruise,
             launchTick := wFireState.tick,
             arrivalTick := wFireState.tick + (MISSILE_TEMPLATES .cruise).flightTime * 10 }] ∧
    wFireState.tick + (MISSILE_TEMPLATES MissileType.cruise).flightTime * 10 = 50 ∧
    wMissile ∈ (runTickMissilePhase (fun _ _ => 0) 49 [wMissile] [] [wEnemyBase]).remainingMissiles ∧
    wMissile ∉ (runTickMissilePhase (fun _ _ => 0) 50 [wMissile] [] [wEnemyBase]).remainingMissiles ∧
    (runTickMissilePhase (fun _ _ => 0) 50 [wMissile] [] [wEnemyBase]).newExplosions.length = 1 ∧
    { wEnemyBase with health := wEnemyBase.health - 200 }
      ∈ (runTickMissilePhase (fun _ _ => 0) 50 [wMissile] [] [wEnemyBase]).updatedAiBases ∧
    wExplosion ∉ (runTickMissilePhase (fun _ _ => 0) 80 [] [wExplosion] []).activeExplosions := by
  refine ⟨?_, ?_, by decide, ?_, ?_, ?_, ?_, ?_⟩
  · exact ((missile_lifecycle (fun _ _ => 0) wFireState { latitude := 0, longitude := 0 }
      "lb1" .cruise wLaunchBase 0 [] [] []).1 rfl rfl rfl rfl (by norm_num [wFireState, MISSILE_TEMPLATES])).2
  · exact ((missile_lifecycle (fun _ _ => 0) wFireState { latitude := 0, longitude := 0 }
      "lb1" .cruise wLaunchBase 0 [] [] []).1 rfl rfl rfl rfl (by norm_num [wFireState, MISSILE_TEMPLATES])).1
  · exact ((missile_lifecycle (fun _ _ => 0) wFireState { latitude := 0, longitude := 0 }
      "lb1" .cruise wLaunchBase 49 [wMissile] [] [wEnemyBase]).2.1 wMissile).mpr
      ⟨by simp, by decide⟩
  · intro hmem
    have h := ((missile_lifecycle (fun _ _ => 0) wFireState { latitude := 0, longitude := 0 }
      "lb1" .cruise wLaunchBase 50 [wMissile] [] [wEnemyBase]).2.1 wMissile).mp hmem
    exact absurd h.2 (by decide)
  · have h := (missile_lifecycle (fun _ _ => 0) wFireState { latitude := 0, longitude := 0 }
      "lb1" .cruise wLaunchBase 50 [wMissile] [] [wEnemyBase]).2.2.1.1
    rw [h]
    decide
  · have h := (missile_lifecycle (fun _ _ => 0) wFireState { latitude := 0, longitude := 0 }
      "lb1" .cruise wLaunchBase 50 [wMissile] [] [wEnemyBase]).2.2.2.2
      (by decide) wEnemyBase (by simp)
    refine (h.1 ?_).1 (by norm_num [wEnemyBase])
    refine ⟨wExplosion, ?_, by norm_num⟩
    decide
  · intro hmem
    have h := ((missile_lifecycle (fun _ _ => 0) wFireState { latitude := 0, longitude := 0 }
      "lb1" .cruise wLaunchBase 80 [] [wExplosion] []).2.2.2.1 wExplosion).mp hmem
    exact absurd h.2 (by decide)

/-! ## Terrain classification and movement (src `engine/terrain`)

This module is the one place the source takes a genuine square root
(`Math.sqrt` in `getNextPosition`), so it is embedded over `ℝ`, with the
bounding-box terrain table carried over verbatim. -/

/-- A latitude/longitude bounding box (the record shape of the entries of
src LAND_REGIONS). -/
structure LatLngBox where
  minLat : ℝ
  maxLat : ℝ
  minLng : ℝ
  maxLng : ℝ

/-- src LAND_REGIONS: North America, South America, Europe, Africa, Asia,
Australia. -/
def LAND_REGIONS : List LatLngBox :=
  [ { minLat := 15, maxLat := 72, minLng := -170, maxLng := -50 },
    { minLat := -56, maxLat := 12, minLng := -82, maxLng := -34 },
    { minLat := 35, maxLat := 71, minLng := -10, maxLng := 60 },
    { minLat := -35, maxLat := 37, minLng := -18, maxLng := 52 },
    { minLat := 5, maxLat := 77, minLng := 25, maxLng := 180 },
    { minLat := -45, maxLat := -10, minLng := 110, maxLng := 155 } ]

/-- Containment in one bounding box. -/
def inBox (box : LatLngBox) (lat lng : ℝ) : Prop :=
  box.minLat ≤ lat ∧ lat ≤ box.maxLat ∧ box.minLng ≤ lng ∧ lng ≤ box.maxLng

/-- src `isWater`: water is everything inside no major land bounding box. -/
def isWater (lat lng : ℝ) : Prop :=
  ¬ ∃ box ∈ LAND_REGIONS, inBox box lat lng

/-- Terrain classification result (src `getTerrainType`). -/
inductive Terrain where
  | land | water
deriving DecidableEq, Repr

open Classical

/-- src `getTerrainType`. -/
noncomputable def getTerrainType (lat lng : ℝ) : Terrain :=
  if isWater lat lng then .water else .land

/-- src `canTraverse`: naval needs water, land needs land, every other
domain moves unconstrained. -/
def canTraverse (domain : UnitDomain) (lat lng : ℝ) : Prop :=
  match domain with
  | .naval => getTerrainType lat lng = .water
  | .land => getTerrainType lat lng = .land
  | _ => True

/-- Result shape of src `getNextPosition`. -/
structure NextPositionResult where
  position : Coordinates ℝ
  blocked : Bool

/-- src `getNextPosition`: below a planar degree distance of 0.01 the unit
snaps to the destination unblocked; otherwise it steps `speedFactor`
toward the destination and is blocked (holding position) when the stepped
point is not traversable for its domain. -/
noncomputable def getNextPosition (current destination : Coordinates ℝ) (domain : UnitDomain)
    (speedFactor : ℝ := 1/100) : NextPositionResult :=
  let dx := destination.longitude - current.longitude
  let dy := destination.latitude - current.latitude
  let distance := Real.sqrt (dx * dx + dy * dy)
  if distance < 1/100 then
    { position := destination, blocked := false }
  else
    let ratio := min (speedFactor / distance) 1
    let nextPosition : Coordinates ℝ :=
      { latitude := current.latitude + dy * ratio,
        longitude := current.longitude + dx * ratio }
    if ¬ canTraverse domain nextPosition.latitude nextPosition.longitude then
      { position := current, blocked := true }
    else
      { position := nextPosition, blocked := false }

/-- C10: whenever the planar degree distance to the destination is strictly
below 0.01, `getNextPosition` returns exactly the destination unblocked,
for every unit domain — the terrain classifier is never consulted on this
final step, so a naval unit can arrive on land and a land unit on water. -/
theorem getNextPosition_final_step_ignores_terrain
    (current destination : Coordinates ℝ) (domain : UnitDomain) (speedFactor : ℝ)
    (h : Real.sqrt ((destination.longitude - current.longitude) *
          (destination.longitude - current.longitude) +
          (destination.latitude - current.latitude) *
          (destination.latitude - current.latitude)) < 1/100) :
    getNextPosition current destination domain speedFactor
      = { position := destination, blocked := false } := by
  unfold getNextPosition
  rw [if_pos h]

/-- Witness for C10: a naval unit one two-hundredth of a degree from a
destination in the middle of North America (dry land, not traversable for
naval units) still arrives there unblocked. -/
theorem getNextPosition_final_step_ignores_terrain_witness :
    ¬ canTraverse .naval (40 : ℝ) (-100 : ℝ) ∧
    getNextPosition { latitude := 40 + 1/200, longitude := -100 }
        { latitude := 40, longitude := -100 } .naval (1/100)
      = { position := { latitude := 40, longitude := -100 }, blocked := false } := by
  constructor
  · intro hc
    have hland : ¬ isWater (40 : ℝ) (-100 : ℝ) := by
      intro hw
      exact hw ⟨{ minLat := 15, maxLat := 72, minLng := -170, maxLng := -50 },
        by simp [LAND_REGIONS], by norm_num [inBox]⟩
    have hterr : getTerrainType (40 : ℝ) (-100 : ℝ) = .land := by
      unfold getTerrainType
      rw [if_neg hland]
    unfold canTraverse at hc
    rw [hterr] at hc
    exact absurd hc (by simp)
  · apply getNextPosition_final_step_ignores_terrain
    dsimp only
    have h1 : ((-100 : ℝ) - -100) * ((-100 : ℝ) - -100) +
        ((40 : ℝ) - (40 + 1/200)) * ((40 : ℝ) - (40 + 1/200)) = (1/200)^2 := by ring
    rw [h1, Real.sqrt_sq (by norm_num)]
    norm_num

/-! ## Defender spawner (src `engine/countryDefenders`)

`Math.random()` shuffles and polar offsets are modelled by oracle
parameters: an arbitrary shuffle function per list, an arbitrary rational
stream for the grid sampling, and an arbitrary displacement pair per unit
placement attempt (standing for `(sin θ · r, cos θ · r)`).  No claim
depends on the drawn values. -/

/-- src COUNTRY_POWER: numeric ISO codes to power ratings. -/
def COUNTRY_POWER : List (String × ℕ) :=
  [("840", 5), ("156", 5), ("643", 5),
   ("356", 4), ("392", 4), ("276", 4), ("826", 4), ("250", 4),
   ("410", 3), ("380", 3), ("076", 3), ("792", 3), ("818", 3), ("682", 3),
   ("364", 3), ("586", 3), ("704", 3), ("360", 3), ("036", 3), ("124", 3),
   ("616", 3), ("724", 3),
   ("484", 2), ("032", 2), ("710", 2), ("804", 2), ("608", 2), ("764", 2),
   ("458", 2), ("566", 2), ("012", 2), ("504", 2), ("604", 2), ("152", 2),
   ("170", 2), ("862", 2)]

/-- src `getCountryPower`: table lookup, default 1. -/
def getCountryPower (countryId : String) : ℕ :=
  (COUNTRY_POWER.lookup countryId).getD 1

/-- All outer-ring vertices of a country (the point set both
`calculateCountryCentroid` and `getCountryBounds` iterate over). -/
def countryRingPoints (country : CountryData) : List (ℚ × ℚ) :=
  country.coordinates.foldl
    (fun acc polygon =>
      match polygon.head? with
      | none => acc
      | some ring => acc ++ ring)
    []

/-- src `calculateCountryCentroid`: arithmetic mean of the outer-ring
vertices, (0,0) when there are none. -/
def calculateCountryCentroid (country : CountryData) : Coordinates ℚ :=
  let pts := countryRingPoints country
  if pts.length = 0 then { latitude := 0, longitude := 0 }
  else
    { latitude := (pts.map (fun c => c.2)).sum / pts.length,
      longitude := (pts.map (fun c => c.1)).sum / pts.length }

/-- src `getCountryBounds` as (minLat, maxLat, minLng, maxLng).  The source
initialises with infinities; for a country with no vertices it returns
them unchanged and the downstream sampling arithmetic is garbage either
way, so the embedding returns zeros in that case (no theorem depends on
position values). -/
def getCountryBounds (country : CountryData) : ℚ × ℚ × ℚ × ℚ :=
  match countryRingPoints country with
  | [] => (0, 0, 0, 0)
  | p :: ps =>
    ps.foldl
      (fun acc c =>
        (min acc.1 c.2, max acc.2.1 c.2, min acc.2.2.1 c.1, max acc.2.2.2 c.1))
      (p.2, p.2, p.1, p.1)

/-- The bounded random-sample loop of src `getRandomPointInCountry`. -/
def sampleAttempts (rng : ℕ → ℚ) (country : CountryData)
    (minLat maxLat minLng maxLng : ℚ) : ℕ → ℕ → Option (Coordinates ℚ)
  | 0, _ => none
  | fuel + 1, i =>
    let lat := minLat + rng (2 * i) * (maxLat - minLat)
    let lng := minLng + rng (2 * i + 1) * (maxLng - minLng)
    if isPointInCountry lat lng country then some { latitude := lat, longitude := lng }
    else sampleAttempts rng country minLat maxLat minLng maxLng fuel (i + 1)

/-- src `getRandomPointInCountry`: up to `maxAttempts` bounding-box samples
verified by `isPointInCountry`, centroid fallback. -/
def getRandomPointInCountry (rng : ℕ → ℚ) (country : CountryData)
    (maxAttempts : ℕ := 50) : Coordinates ℚ :=
  let bounds := getCountryBounds country
  match sampleAttempts rng country bounds.1 bounds.2.1 bounds.2.2.1 bounds.2.2.2 maxAttempts 0 with
  | some p => p
  | none => calculateCountryCentroid country

/-- The bounded per-cell sample loop of src `getSpreadPointsInCountry`. -/
def cellAttempts (rng : ℕ → ℚ) (country : CountryData)
    (cellMinLat cellMinLng cellHeight cellWidth : ℚ) : ℕ → ℕ → Option (Coordinates ℚ)
  | 0, _ => none
  | fuel + 1, k =>
    let lat := cellMinLat + rng (2 * k) * cellHeight
    let lng := cellMinLng + rng (2 * k + 1) * cellWidth
    if isPointInCountry lat lng country then some { latitude := lat, longitude := lng }
    else cellAttempts rng country cellMinLat cellMinLng cellHeight cellWidth fuel (k + 1)

/-- The value of `Math.ceil (Math.sqrt n)` on a natural number. -/
def natCeilSqrt (n : ℕ) : ℕ :=
  if Nat.sqrt n * Nat.sqrt n = n then Nat.sqrt n else Nat.sqrt n + 1

/-- src `getSpreadPointsInCountry`: grid-partition the bounding box into
`count` cells, 20 verified samples per cell, falling back to
`getRandomPointInCountry`; always produces exactly `count` points. -/
def getSpreadPointsInCountry (rngs : ℕ → ℕ → ℚ) (country : CountryData)
    (count : ℕ) : List (Coordinates ℚ) :=
  let bounds := getCountryBounds country
  let cols := natCeilSqrt count
  let rows := (count + cols - 1) / cols
  let cellWidth := (bounds.2.2.2 - bounds.2.2.1) / (cols : ℚ)
  let cellHeight := (bounds.2.1 - bounds.1) / (rows : ℚ)
  (List.range count).map (fun i =>
    let col := i % cols
    let row := i / cols
    let cellMinLng := bounds.2.2.1 + (col : ℚ) * cellWidth
    let cellMinLat := bounds.1 + (row : ℚ) * cellHeight
    match cellAttempts (rngs (2 * i)) country cellMinLat cellMinLng cellHeight cellWidth 20 0 with
    | some p => p
    | none => getRandomPointInCountry (rngs (2 * i + 1)) country 50)

/-- src `unitTypesForBase` table inside `generateUnitsForBase`. -/
def unitTypesForBase : BaseType → List UnitType
  | .hq => [.infantry, .armor, .engineer]
  | .army => [.infantry, .armor, .artillery, .air_defense, .special_forces]
  | .navy => [.destroyer, .frigate, .submarine, .carrier, .amphibious]
  | .airforce => [.fighter, .bomber, .helicopter, .drone, .transport]
  | .intelligence => [.special_forces, .intel_team, .drone, .cyber_team]
  | .missile => [.infantry, .air_defense, .armor]

/-- The bounded nearby-position retry loop of src `generateUnitsForBase`. -/
def unitPositionAttempts (offsets : ℕ → ℚ × ℚ) (country : CountryData)
    (basePos : Coordinates ℚ) : ℕ → ℕ → Option (Coordinates ℚ)
  | 0, _ => none
  | fuel + 1, k =>
    let lat := basePos.latitude + (offsets k).1
    let lng := basePos.longitude + (offsets k).2
    if isPointInCountry lat lng country then some { latitude := lat, longitude := lng }
    else unitPositionAttempts offsets country basePos fuel (k + 1)

/-- src `generateUnitsForBase`: `min 8 (1 + power)` units of types drawn
cyclically from the shuffled per-base-type list, placed at a random offset
re-verified against the country polygon, falling back to the base's exact
position.  `uuidv4()` is modelled as an id derived from the base id and
index. -/
def generateUnitsForBase (shuffleU : List UnitType → List UnitType)
    (offsets : ℕ → ℕ → ℚ × ℚ) (base : Base) (power : ℕ) (countryName : String)
    (existingUnitCount : ℕ) (currentTick : ℕ) (country : CountryData) : List GameUnit :=
  let unitCount := min 8 (1 + power)
  let shuffledUnitTypes := shuffleU (unitTypesForBase base.type)
  (List.range unitCount).map (fun i =>
    let unitType := shuffledUnitTypes.getD (i % shuffledUnitTypes.length) .infantry
    let candLat := base.position.latitude + (offsets i 0).1
    let candLng := base.position.longitude + (offsets i 0).2
    let unitPosition :=
      if isPointInCountry candLat candLng country then
        { latitude := candLat, longitude := candLng : Coordinates ℚ }
      else
        match unitPositionAttempts (fun k => offsets i (k + 1)) country base.position 10 0 with
        | some p => p
        | none => base.position
    { id := base.id ++ "-unit-" ++ toString (existingUnitCount + i),
      templateType := unitType,
      name := countryName ++ " unit " ++ toString (existingUnitCount + i + 1),
      position := unitPosition, faction := .ai, health := 100, maxHealth := 100,
      status := .defending, parentBaseId := some base.id, createdAt := currentTick })

/-- Randomness oracles for one `generateCountryDefenses` call. -/
structure SpawnRng where
  shuffleBaseTypes : List BaseType → List BaseType
  shuffleUnitTypes : ℕ → List UnitType → List UnitType
  spreadRngs : ℕ → ℕ → ℚ
  unitOffsets : ℕ → ℕ → ℕ → ℚ × ℚ

/-- Output of `generateCountryDefenses`. -/
structure CountryDefenses where
  bases : List Base
  units : List GameUnit
deriving Repr

/-- The distinguished enemy headquarters of src `generateCountryDefenses`:
id `defender-<countryId>-hq`, health 800. -/
def defenderHQ (countryId countryName : String) (currentTick : ℕ)
    (hqPosition : Coordinates ℚ) : Base :=
  { id := "defender-" ++ countryId ++ "-hq", name := countryName ++ " Command HQ",
    type := .hq, position := hqPosition, faction := .ai, health := 800,
    maxHealth := 800, productionCapacity := 2,
    influenceRadius := (BASE_CONFIG .hq).influenceRadius, createdAt := currentTick }

/-- One regular-base iteration of src `generateCountryDefenses`: build the
`i`-th regular base (type drawn cyclically from the shuffled list, health
500 for army and 400 otherwise) and its garrison, appending both to the
accumulated lists. -/
def spawnRegularBaseStep (R : SpawnRng) (countryId countryName : String)
    (currentTick : ℕ) (country : CountryData) (power : ℕ)
    (shuffledTypes : List BaseType) (basePositions : List (Coordinates ℚ))
    (acc : List Base × List GameUnit) (i : ℕ) : List Base × List GameUnit :=
  let baseType := shuffledTypes.getD (i % shuffledTypes.length) .army
  let basePosition := basePositions.getD (i + 1) { latitude := 0, longitude := 0 }
  let base : Base :=
    { id := "defender-" ++ countryId ++ "-base-" ++ toString i,
      name := countryName ++ " " ++ (BASE_CONFIG baseType).name,
      type := baseType, position := basePosition, faction := .ai,
      health := if baseType = .army then 500 else 400,
      maxHealth := if baseType = .army then 500 else 400,
      productionCapacity := 1,
      influenceRadius := (BASE_CONFIG baseType).influenceRadius,
      createdAt := currentTick }
  let unitsForBase := generateUnitsForBase (R.shuffleUnitTypes (i + 1))
    (R.unitOffsets (i + 1)) base power countryName acc.2.length currentTick country
  (acc.1 ++ [base], acc.2 ++ unitsForBase)

/-- src `generateCountryDefenses`: `min 5 (1 + power)` regular bases plus
one HQ (id `defender-<countryId>-hq`, health 800; regular bases 500 when
army, 400 otherwise), positions from the grid sampler, each base spawning
its own garrison. -/
def generateCountryDefenses (R : SpawnRng) (countryId countryName : String)
    (_entryPosition : Coordinates ℚ) (currentTick : ℕ) : CountryDefenses :=
  let power := getCountryPower countryId
  match COUNTRIES.find? (fun c => decide (c.id = countryId)) with
  | none => { bases := [], units := [] }
  | some country =>
    let numRegularBases := min 5 (1 + power)
    let totalBases := numRegularBases + 1
    let shuffledTypes := R.shuffleBaseTypes [.army, .navy, .airforce, .intelligence]
    let basePositions := getSpreadPointsInCountry R.spreadRngs country totalBases
    let enemyHQ := defenderHQ countryId countryName currentTick
      (basePositions.getD 0 { latitude := 0, longitude := 0 })
    let hqUnits := generateUnitsForBase (R.shuffleUnitTypes 0) (R.unitOffsets 0)
      enemyHQ power countryName 0 currentTick country
    let result := (List.range numRegularBases).foldl
      (spawnRegularBaseStep R countryId countryName currentTick country power
        shuffledTypes basePositions)
      ([enemyHQ], hqUnits)
    { bases := result.1, units := result.2 }

/-- The function `generateUnitsForBase` produces exactly `min 8 (1 + power)` units, all
parented to the given base. -/
theorem generateUnitsForBase_count (shuffleU : List UnitType → List UnitType)
    (offsets : ℕ → ℕ → ℚ × ℚ) (base : Base) (power : ℕ) (countryName : String)
    (cnt currentTick : ℕ) (country : CountryData) :
    (generateUnitsForBase shuffleU offsets base power countryName cnt currentTick country).length
      = min 8 (1 + power) ∧
    ∀ u ∈ generateUnitsForBase shuffleU offsets base power countryName cnt currentTick country,
      u.parentBaseId = some base.id := by
  constructor
  · simp [generateUnitsForBase]
  · intro u hu
    simp only [generateUnitsForBase] at hu
    obtain ⟨i, _, rfl⟩ := List.mem_map.mp hu
    rfl

/-- A list of blocks of constant length `k` joins to `length * k`
elements. -/
theorem join_const_length {α : Type} (k : ℕ) :
    ∀ blocks : List (List α), (∀ bl ∈ blocks, bl.length = k) →
      blocks.flatten.length = blocks.length * k := by
  intro blocks
  induction blocks with
  | nil => simp
  | cons bl rest ih =>
    intro h
    simp only [List.flatten_cons, List.length_append, List.length_cons]
    rw [h bl (List.mem_cons_self _ _), ih (fun b hb => h b (List.mem_cons_of_mem _ hb))]
    ring

/-- The regular-base fold appends one base and one constant-size garrison
block per index. -/
theorem spawnRegularBaseStep_fold_spec (R : SpawnRng) (countryId countryName : String)
    (currentTick : ℕ) (country : CountryData) (power : ℕ)
    (shuffledTypes : List BaseType) (basePositions : List (Coordinates ℚ)) :
    ∀ (n : ℕ) (accB : List Base) (accU : List GameUnit),
      ∃ newBases blocks,
        ((List.range n).foldl
          (spawnRegularBaseStep R countryId countryName currentTick country power
            shuffledTypes basePositions) (accB, accU)).1 = accB ++ newBases ∧
        ((List.range n).foldl
          (spawnRegularBaseStep R countryId countryName currentTick country power
            shuffledTypes basePositions) (accB, accU)).2 = accU ++ blocks.flatten ∧
        newBases.length = n ∧
        List.Forall₂ (fun (bl : List GameUnit) (b : Base) =>
          bl.length = min 8 (1 + power) ∧ ∀ u ∈ bl, u.parentBaseId = some b.id)
          blocks newBases ∧
        ∀ b ∈ newBases, b.health = (if b.type = .army then (500:ℚ) else 400) := by
  intro n
  induction n with
  | zero =>
    intro accB accU
    exact ⟨[], [], by simp, by simp, rfl, List.Forall₂.nil, by simp⟩
  | succ m ih =>
    intro accB accU
    obtain ⟨newBases, blocks, h1, h2, h3, h4, h5⟩ := ih accB accU
    rw [List.range_succ]
    simp only [List.foldl_append, List.foldl_cons, List.foldl_nil]
    set st := (List.range m).foldl
      (spawnRegularBaseStep R countryId countryName currentTick country power
        shuffledTypes basePositions) (accB, accU) with hst
    set bt := shuffledTypes.getD (m % shuffledTypes.length) .army with hbt
    set newBase : Base :=
      { id := "defender-" ++ countryId ++ "-base-" ++ toString m,
        name := countryName ++ " " ++ (BASE_CONFIG bt).name,
        type := bt, position := basePositions.getD (m + 1) { latitude := 0, longitude := 0 },
        faction := .ai,
        health := if bt = .army then 500 else 400,
        maxHealth := if bt = .army then 500 else 400,
        productionCapacity := 1,
        influenceRadius := (BASE_CONFIG bt).influenceRadius,
        createdAt := currentTick } with hnb
    set newUnits := generateUnitsForBase (R.shuffleUnitTypes (m + 1))
      (R.unitOffsets (m + 1)) newBase power countryName st.2.length currentTick country
      with hnu
    refine ⟨newBases ++ [newBase], blocks ++ [newUnits], ?_, ?_, ?_, ?_, ?_⟩
    · show (st.1 ++ [newBase]) = accB ++ (newBases ++ [newBase])
      rw [h1, List.append_assoc]
    · show (st.2 ++ newUnits) = accU ++ (blocks ++ [newUnits]).flatten
      rw [h2]
      simp [List.append_assoc]
    · simp [h3]
    · refine List.rel_append h4 (List.Forall₂.cons ?_ List.Forall₂.nil)
      exact ⟨(generateUnitsForBase_count _ _ _ _ _ _ _ _).1,
        (generateUnitsForBase_count _ _ _ _ _ _ _ _).2⟩
    · intro b hb
      rcases List.mem_append.mp hb with h | h
      · exact h5 b h
      · have hbeq : b = newBase := by simpa using h
        subst hbeq
        rfl

/-- Each left element of a `Forall₂` pairing has a related right partner. -/
theorem forall₂_mem_left {α β : Type} {R : α → β → Prop} :
    ∀ {l1 : List α} {l2 : List β}, List.Forall₂ R l1 l2 → ∀ a ∈ l1, ∃ b, R a b := by
  intro l1 l2 h
  induction h with
  | nil => intro a ha; simp at ha
  | cons hr _ ih =>
    intro a ha
    rcases List.mem_cons.mp ha with rfl | h2
    · exact ⟨_, hr⟩
    · exact ih a h2

/-- C4: for an invaded country of power rating p found in the registry,
`generateCountryDefenses` produces exactly `min 5 (1+p) + 1` bases — one
leading HQ with id `defender-<countryId>-hq` and health 800, and
`min 5 (1+p)` regular bases of health 500 for army type and 400 otherwise
— and the unit list decomposes into one garrison block per base, each of
exactly `min 8 (1+p)` units parented to its base (so `(min 5 (1+p) + 1) *
min 8 (1+p)` units in total). -/
theorem generateCountryDefenses_spec (R : SpawnRng) (countryId countryName : String)
    (entryPos : Coordinates ℚ) (currentTick : ℕ) (country : CountryData)
    (hfound : COUNTRIES.find? (fun c => decide (c.id = countryId)) = some country) :
    (generateCountryDefenses R countryId countryName entryPos currentTick).bases.length
      = min 5 (1 + getCountryPower countryId) + 1 ∧
    (∃ hq : Base,
      (generateCountryDefenses R countryId countryName entryPos currentTick).bases.head?
        = some hq ∧
      hq.id = "defender-" ++ countryId ++ "-hq" ∧ hq.health = 800 ∧ hq.type = .hq) ∧
    (∀ b ∈ (generateCountryDefenses R countryId countryName entryPos currentTick).bases.tail,
      b.health = if b.type = .army then (500:ℚ) else 400) ∧
    (∃ blocks : List (List GameUnit),
      (generateCountryDefenses R countryId countryName entryPos currentTick).units
        = blocks.flatten ∧
      List.Forall₂ (fun (bl : List GameUnit) (b : Base) =>
          bl.length = min 8 (1 + getCountryPower countryId) ∧
          ∀ u ∈ bl, u.parentBaseId = some b.id)
        blocks (generateCountryDefenses R countryId countryName entryPos currentTick).bases) ∧
    (generateCountryDefenses R countryId countryName entryPos currentTick).units.length
      = (min 5 (1 + getCountryPower countryId) + 1) * min 8 (1 + getCountryPower countryId) := by
  unfold generateCountryDefenses
  rw [hfound]
  dsimp only
  set p := getCountryPower countryId with hp
  set basePositions := getSpreadPointsInCountry R.spreadRngs country (min 5 (1 + p) + 1)
    with hbp
  set HQ := defenderHQ countryId countryName currentTick
    (basePositions.getD 0 { latitude := 0, longitude := 0 }) with hHQ
  set hqUnits := generateUnitsForBase (R.shuffleUnitTypes 0) (R.unitOffsets 0) HQ p
    countryName 0 currentTick country with hhqu
  obtain ⟨newBases, blocks, h1, h2, h3, h4, h5⟩ :=
    spawnRegularBaseStep_fold_spec R countryId countryName currentTick country p
      (R.shuffleBaseTypes [.army, .navy, .airforce, .intelligence]) basePositions
      (min 5 (1 + p)) [HQ] hqUnits
  have hqcount := generateUnitsForBase_count (R.shuffleUnitTypes 0) (R.unitOffsets 0) HQ p
    countryName 0 currentTick country
  refine ⟨?_, ?_, ?_, ?_, ?_⟩
  · rw [h1]
    simp [h3]
  · refine ⟨HQ, ?_, rfl, rfl, rfl⟩
    rw [h1]
    simp
  · intro b hb
    rw [h1] at hb
    simp only [List.singleton_append, List.tail_cons] at hb
    exact h5 b hb
  · refine ⟨hqUnits :: blocks, ?_, ?_⟩
    · rw [h2]
      simp
    · rw [h1]
      simp only [List.singleton_append]
      exact List.Forall₂.cons ⟨hqcount.1, hqcount.2⟩ h4
  · rw [h2]
    have hbl : ∀ bl ∈ blocks, bl.length = min 8 (1 + p) := by
      intro bl hblmem
      obtain ⟨b, hR⟩ := forall₂_mem_left h4 bl hblmem
      exact hR.1
    have hjoin := join_const_length (min 8 (1 + p)) blocks hbl
    have hlen : blocks.length = newBases.length := h4.length_eq
    simp only [List.length_append]
    rw [hqcount.1, hjoin, hlen, h3]
    ring

/-- Trivial randomness oracles (identity shuffles, zero draws) for the C4
witness. -/
def wSpawnRng : SpawnRng :=
  { shuffleBaseTypes := id, shuffleUnitTypes := fun _ => id,
    spreadRngs := fun _ _ => 0, unitOffsets := fun _ _ _ => (0, 0) }

/-- The registry record for the United States, as listed in `COUNTRIES`. -/
def wUSA : CountryData :=
  { id := "usa", name := "United States",
    coordinates := [[[(-125, 49), (-125, 25), (-100, 25), (-80, 25), (-80, 45),
      (-70, 45), (-70, 49), (-125, 49)]]] }

/-- Witness for C4: spawning defenders for the registry's United States
entry yields exactly `min 5 (1+p) + 1` bases, a leading 800-health HQ with
the distinguished id, and `(min 5 (1+p) + 1) * min 8 (1+p)` units. -/
theorem generateCountryDefenses_spec_witness :
    (generateCountryDefenses wSpawnRng "usa" "United States"
        { latitude := 0, longitude := 0 } 0).bases.length
      = min 5 (1 + getCountryPower "usa") + 1 ∧
    (∃ hq : Base,
      (generateCountryDefenses wSpawnRng "usa" "United States"
          { latitude := 0, longitude := 0 } 0).bases.head? = some hq ∧
      hq.id = "defender-" ++ "usa" ++ "-hq" ∧ hq.health = 800) ∧
    (generateCountryDefenses wSpawnRng "usa" "United States"
        { latitude := 0, longitude := 0 } 0).units.length
      = (min 5 (1 + getCountryPower "usa") + 1) * min 8 (1 + getCountryPower "usa") := by
  have h := generateCountryDefenses_spec wSpawnRng "usa" "United States"
    { latitude := 0, longitude := 0 } 0 wUSA (by rfl)
  exact ⟨h.1, ⟨h.2.1.choose, h.2.1.choose_spec.1, h.2.1.choose_spec.2.1,
    h.2.1.choose_spec.2.2.1⟩, h.2.2.2.2⟩
